import Mathlib

/-!
# ProyectBio-Arduino: BLE emitter core

A shallow embedding of the advertising-packet construction and the
service/characteristic helpers of `ServicioEnEmisora.h`, `EmisoraBLE.h` and
`Publicador.h`, with the properties stated about them.

Conventions of the embedding:

* a byte (`uint8_t`, `char`) is a natural number below 256; memory reached
  through a pointer is the list of bytes that starts at it;
* a write `p[k] = v` is `List.set p k v`; a read `p[k]` is `List.getD p k 0`;
* sizes and indices (`int`, `uint8_t`) are natural numbers, `int16_t` values
  are integers; the bounds of the C types are hypotheses where they matter;
* a `for` loop is a function recursive on the number of iterations left that
  carries the loop variable and the memory it updates;
* the vendor BLE stack (`Bluefruit`) is an explicit state that records every
  call it receives; what the stack answers to a registration is an argument
  of the method that asks;
* a `double` is a mantissa and an exponent of two, and the product by ten
  rounds as `double` arithmetic does;
* a blocking wait is recorded with its length and the state of the stack
  while it lasts.
-/

namespace ProyectBio

/-! ## ServicioEnEmisora.h: reversal utilities -/

/-- Length of a C string: the number of bytes before the first NUL of the
memory at the pointer (`strlen`). -/
def strlen : List Nat → Nat
  | [] => 0
  | c :: cs => if c = 0 then 0 else strlen cs + 1

/-- Loop of `alReves`: `restantes` iterations are left, `i` is the loop
variable; each iteration swaps `p[i]` and `p[n - i - 1]` through `aux`. -/
def alRevesBucle (n : Nat) : Nat → Nat → List Nat → List Nat
  | 0, _, p => p
  | restantes + 1, i, p =>
    let aux := p.getD i 0
    let p1 := p.set i (p.getD (n - i - 1) 0)
    let p2 := p1.set (n - i - 1) aux
    alRevesBucle n restantes (i + 1) p2

/-- Function `alReves(p, n)`: `for (i = 0; i < n / 2; i++)` swap `p[i]` and
`p[n - i - 1]`; returns the array. -/
def alReves (p : List Nat) (n : Nat) : List Nat :=
  alRevesBucle n (n / 2) 0 p

/-- Loop of `stringAUint8AlReves`: `restantes` iterations are left, `i` is
the loop variable; each iteration does `pUint[tamMax - i - 1] = pString[i]`. -/
def stringAUint8AlRevesBucle (pString : List Nat) (tamMax : Nat) :
    Nat → Nat → List Nat → List Nat
  | 0, _, pUint => pUint
  | restantes + 1, i, pUint =>
    stringAUint8AlRevesBucle pString tamMax restantes (i + 1)
      (pUint.set (tamMax - i - 1) (pString.getD i 0))

/-- Function `stringAUint8AlReves(pString, pUint, tamMax)`: copies
`longitudCopiar = min(strlen(pString), tamMax)` bytes of the string into the
array, back to front, and returns the array. The loop
`for (i = 0; i <= longitudCopiar - 1; i++)` runs `longitudCopiar` times. -/
def stringAUint8AlReves (pString pUint : List Nat) (tamMax : Nat) : List Nat :=
  let longitudString := strlen pString
  let longitudCopiar := if longitudString > tamMax then tamMax else longitudString
  stringAUint8AlRevesBucle pString tamMax longitudCopiar 0 pUint

/-- Initial content of `uuidServicio` and `uuidCaracteristica`: the sixteen
characters `'0'..'9'`, `'A'..'F'`. -/
def uuidInicial : List Nat :=
  [48, 49, 50, 51, 52, 53, 54, 55, 56, 57, 65, 66, 67, 68, 69, 70]

/-! ## The vendor BLE stack and the serial port -/

/-- Function `memcpy`, its loop: `restantes` bytes are left, `i` bytes are
copied; each step does `destino[desplazamiento + i] = origen[i]`. -/
def memcpyBucle (origen : List Nat) (desplazamiento : Nat) :
    Nat → Nat → List Nat → List Nat
  | 0, _, destino => destino
  | restantes + 1, i, destino =>
    memcpyBucle origen desplazamiento restantes (i + 1)
      (destino.set (desplazamiento + i) (origen.getD i 0))

/-- Call `memcpy(&destino[desplazamiento], &origen[0], n)`: copies the first
`n` bytes of `origen` over `destino` from index `desplazamiento` on. -/
def memcpy (destino : List Nat) (desplazamiento : Nat) (origen : List Nat) (n : Nat) :
    List Nat :=
  memcpyBucle origen desplazamiento n 0 destino

/-- Beacon object of the stack (`BLEBeacon`): the values its constructor and
`setManufacturer` receive. `major` and `minor` are the `int16_t` values and
`rssi` the `uint8_t` value that `emitirAnuncioIBeacon` passes on. -/
structure BLEBeacon where
  uuid128 : List Nat
  major : Int
  minor : Int
  rssi : Nat
  manufacturer : Nat
  deriving DecidableEq

/-- Method `BLEBeacon::setManufacturer`. -/
def BLEBeacon.setManufacturer (b : BLEBeacon) (manufacturer : Nat) : BLEBeacon :=
  { b with manufacturer := manufacturer }

/-- The two bytes of a 16-bit value (given as a signed or unsigned integer),
most significant first, as the frame example of `EmisoraBLE.h` writes major
1234 (`0x04, 0xd2`). -/
def bytes16 (v : Int) : List Nat :=
  [(v % 65536).toNat / 256, (v % 65536).toNat % 256]

/-- The `int16_t` value of two bytes, most significant first. -/
def int16DeBytes (alto bajo : Nat) : Int :=
  if alto * 256 + bajo < 32768 then ((alto * 256 + bajo : Nat) : Int)
  else ((alto * 256 + bajo : Nat) : Int) - 65536

/-- Modelled from the spec: the frame the vendor stack builds from a beacon
object in `Advertising.setBeacon`, which is not part of the repository. By the
BeaconFrame of the data model and the 31-byte example in `EmisoraBLE.h` it is
the company ID (two bytes, least significant first), the type `0x02`, the
length 21, and the 21-byte payload: 16-byte UUID, 2-byte major, 2-byte minor,
1-byte measured power. -/
def BLEBeacon.trama (b : BLEBeacon) : List Nat :=
  [b.manufacturer % 256, b.manufacturer / 256 % 256, 0x02, 21]
    ++ memcpy (List.replicate 16 0) 0 b.uuid128 16
    ++ bytes16 b.major ++ bytes16 b.minor ++ [b.rssi % 256]

/-- Constant `BLE_GAP_ADV_FLAGS_LE_ONLY_GENERAL_DISC_MODE` of the stack
headers (the `0x06` of the advertising flags `0x02, 0x01, 0x06`). -/
def BLE_GAP_ADV_FLAGS_LE_ONLY_GENERAL_DISC_MODE : Nat := 0x06

/-- Constant `BLE_GAP_AD_TYPE_MANUFACTURER_SPECIFIC_DATA` of the stack headers
(`0xFF`). -/
def BLE_GAP_AD_TYPE_MANUFACTURER_SPECIFIC_DATA : Nat := 0xFF

/-- The calls of the stack that the emitter, the services and the
characteristics issue; a service or characteristic is named by its UUID. -/
inductive Llamada where
  | begin
  | setTxPower (txPower : Int)
  | setName (nombre : List Nat)
  | scanResponseAddName
  | scanResponseClearData
  | advertisingClearData
  | advertisingAddFlags (flags : Nat)
  | advertisingSetBeacon (beacon : BLEBeacon)
  | advertisingAddData (tipo : Nat) (datos : List Nat)
  | advertisingRestartOnDisconnect (activo : Bool)
  | advertisingSetInterval (rapido lento : Nat)
  | advertisingSetFastTimeout (segundos : Nat)
  | advertisingStart (timeout : Nat)
  | advertisingStop
  | advertisingAddService (uuid : List Nat)
  | serviceBegin (uuid : List Nat)
  | characteristicBegin (uuid : List Nat)
  deriving DecidableEq

/-- State of the stack singleton `Bluefruit`: whether `begin()` has been
called, whether advertising is running (`Advertising.isRunning()`), and the
calls received so far, oldest first. -/
structure Bluefruit where
  encendida : Bool
  anunciando : Bool
  llamadas : List Llamada
  deriving DecidableEq

/-- Modelled from the spec: the effect of one call on the vendor stack, which
is not part of the repository. By the AdvertisingState of the data model and
the stack surface of the external interfaces, `begin` powers the radio on,
`Advertising.start` makes advertising run, `Advertising.stop` ends it, and no
other call changes either flag. Every call is recorded. -/
def Bluefruit.llamar (b : Bluefruit) (c : Llamada) : Bluefruit :=
  { encendida :=
      match c with
      | .begin => true
      | _ => b.encendida
    anunciando :=
      match c with
      | .advertisingStart _ => true
      | .advertisingStop => false
      | _ => b.anunciando
    llamadas := b.llamadas ++ [c] }

/-- The globals the emitter works on: the stack singleton `Bluefruit` and the
texts written to the serial port (`Globales::elPuerto`, `Serial`), oldest
first. -/
structure Globales where
  bluefruit : Bluefruit
  elPuerto : List String
  deriving DecidableEq

/-- One call to the stack. -/
def Globales.llamar (g : Globales) (c : Llamada) : Globales :=
  { g with bluefruit := g.bluefruit.llamar c }

/-- Method `PuertoSerie::escribir` on a text. -/
def Globales.escribir (g : Globales) (mensaje : String) : Globales :=
  { g with elPuerto := g.elPuerto ++ [mensaje] }

/-- The data blocks handed to the stack through `Advertising.addData`, in
order. -/
def bloquesAddData : List Llamada → List (List Nat)
  | [] => []
  | .advertisingAddData _ datos :: resto => datos :: bloquesAddData resto
  | _ :: resto => bloquesAddData resto

/-- The beacon objects handed to the stack through `Advertising.setBeacon`,
in order. -/
def beaconsSetBeacon : List Llamada → List BLEBeacon
  | [] => []
  | .advertisingSetBeacon beacon :: resto => beacon :: beaconsSetBeacon resto
  | _ :: resto => beaconsSetBeacon resto

/-! ## EmisoraBLE.h -/

/-- Class `EmisoraBLE`: its three constant members. -/
structure EmisoraBLE where
  nombreEmisora : List Nat
  fabricanteID : Nat
  txPower : Int
  deriving DecidableEq

/-- Method `estaAnunciando`: `Bluefruit.Advertising.isRunning()`. -/
def EmisoraBLE.estaAnunciando (_e : EmisoraBLE) (g : Globales) : Bool :=
  g.bluefruit.anunciando

/-- Method `detenerAnuncio`: stops advertising if it is running. -/
def EmisoraBLE.detenerAnuncio (e : EmisoraBLE) (g : Globales) : Globales :=
  if e.estaAnunciando g then g.llamar .advertisingStop else g

/-- Method `encenderEmisora()`: `Bluefruit.begin()`, then `detenerAnuncio()`. -/
def EmisoraBLE.encenderEmisora (e : EmisoraBLE) (g : Globales) : Globales :=
  e.detenerAnuncio (g.llamar .begin)

/-- Method `emitirAnuncioIBeacon(beaconUUID, major, minor, rssi)`. The beacon
object is built from the four arguments and `setManufacturer` then gives it
the emitter's `fabricanteID` in place of the constructor's own value. -/
def EmisoraBLE.emitirAnuncioIBeacon (e : EmisoraBLE) (beaconUUID : List Nat)
    (major minor : Int) (rssi : Nat) (g : Globales) : Globales :=
  let g := e.detenerAnuncio g
  let elBeacon : BLEBeacon :=
    { uuid128 := beaconUUID, major := major, minor := minor, rssi := rssi,
      manufacturer := 0x004C }
  let elBeacon := elBeacon.setManufacturer e.fabricanteID
  let g := g.llamar (.setTxPower e.txPower)
  let g := g.llamar (.setName e.nombreEmisora)
  let g := g.llamar .scanResponseAddName
  let g := g.llamar (.advertisingSetBeacon elBeacon)
  let g := g.llamar (.advertisingRestartOnDisconnect true)
  let g := g.llamar (.advertisingSetInterval 100 100)
  g.llamar (.advertisingStart 0)

/-- Initial value of the local array `restoPrefijoYCarga[4+21]` of
`emitirAnuncioIBeaconLibre`: company ID, type, length, and 21 times `'-'`
(45). -/
def restoPrefijoYCargaInicial : List Nat :=
  [0x4c, 0x00,
   0x02,
   21,
   45, 45, 45, 45,
   45, 45, 45, 45,
   45, 45, 45, 45,
   45, 45, 45, 45,
   45, 45, 45, 45,
   45]

/-- The local array `restoPrefijoYCarga` of `emitirAnuncioIBeaconLibre` after
`memcpy(&restoPrefijoYCarga[4], &carga[0], (tamanyoCarga > 21 ? 21 : tamanyoCarga))`. -/
def restoPrefijoYCarga (carga : List Nat) (tamanyoCarga : Nat) : List Nat :=
  memcpy restoPrefijoYCargaInicial 4 carga (if tamanyoCarga > 21 then 21 else tamanyoCarga)

/-- Method `emitirAnuncioIBeaconLibre(carga, tamanyoCarga)`. The block given
to `addData` is the first `4+21` bytes of the local array. -/
def EmisoraBLE.emitirAnuncioIBeaconLibre (e : EmisoraBLE) (carga : List Nat)
    (tamanyoCarga : Nat) (g : Globales) : Globales :=
  let g := e.detenerAnuncio g
  let g := g.llamar .advertisingClearData
  let g := g.llamar .scanResponseClearData
  let g := g.llamar (.setName e.nombreEmisora)
  let g := g.llamar .scanResponseAddName
  let g := g.llamar (.advertisingAddFlags BLE_GAP_ADV_FLAGS_LE_ONLY_GENERAL_DISC_MODE)
  let g := g.llamar (.advertisingAddData BLE_GAP_AD_TYPE_MANUFACTURER_SPECIFIC_DATA
    ((restoPrefijoYCarga carga tamanyoCarga).take (4 + 21)))
  let g := g.llamar (.advertisingRestartOnDisconnect true)
  let g := g.llamar (.advertisingSetInterval 100 100)
  let g := g.llamar (.advertisingSetFastTimeout 1)
  let g := g.llamar (.advertisingStart 0)
  g.escribir "emitiriBeacon libre  Bluefruit.Advertising.start( 0 );  \n"

/-- The globals at start-up: radio off, nothing advertised, no call issued,
nothing written. -/
def Globales.inicial : Globales :=
  { bluefruit := { encendida := false, anunciando := false, llamadas := [] },
    elPuerto := [] }

/-- The emitter of the usage example in the header of `EmisoraBLE.h`,
`EmisoraBLE emisora("MiEmisora", 0x4C00, 0xCA)`: the `int8_t` transmit power
`0xCA` is `-54`. -/
def emisoraEjemplo : EmisoraBLE :=
  { nombreEmisora := [77, 105, 69, 109, 105, 115, 111, 114, 97, 0],
    fabricanteID := 0x4C00,
    txPower := -54 }

/-! ## Sequences of emitter operations and what they do to the radio -/

/-- The operations of the emitter that start, stop or power advertising. -/
inductive Operacion where
  | encenderEmisora
  | detenerAnuncio
  | emitirAnuncioIBeacon (beaconUUID : List Nat) (major minor : Int) (rssi : Nat)
  | emitirAnuncioIBeaconLibre (carga : List Nat) (tamanyoCarga : Nat)

/-- One operation of the emitter. -/
def EmisoraBLE.ejecutar (e : EmisoraBLE) (g : Globales) : Operacion → Globales
  | .encenderEmisora => e.encenderEmisora g
  | .detenerAnuncio => e.detenerAnuncio g
  | .emitirAnuncioIBeacon beaconUUID major minor rssi =>
    e.emitirAnuncioIBeacon beaconUUID major minor rssi g
  | .emitirAnuncioIBeaconLibre carga tamanyoCarga =>
    e.emitirAnuncioIBeaconLibre carga tamanyoCarga g

/-- A sequence of operations of the emitter, first to last. -/
def EmisoraBLE.ejecutarTodas (e : EmisoraBLE) (ops : List Operacion) (g : Globales) :
    Globales :=
  ops.foldl e.ejecutar g

/-- The two kinds of advertisement (AdvertisingState of the data model). -/
inductive TipoAnuncio where
  | beacon
  | cargaLibre
  deriving DecidableEq

/-- What a sequence of stack calls amounts to: whether advertising is running,
the kind of advertisement body configured last, the kinds of the
advertisements started and not stopped since, and whether every
advertising-configuration call so far arrived while advertising was not
running. -/
structure Radio where
  anunciando : Bool
  cuerpo : Option TipoAnuncio
  activos : List TipoAnuncio
  enRegla : Bool
  deriving DecidableEq

/-- The radio before any call. -/
def Radio.inicial : Radio :=
  { anunciando := false, cuerpo := none, activos := [], enRegla := true }

/-- Effect of one stack call on `Radio`: `Advertising.stop` ends every active
advertisement, `Advertising.start` adds one of the configured kind to the
active ones, `begin` changes nothing, and every other call is an
advertising-configuration call, in order only when advertising is not
running; `setBeacon` and `addData` set the kind of the body, `clearData`
empties it. The registrations `BLEService::begin` and
`BLECharacteristic::begin` do not configure advertising. -/
def Radio.paso (r : Radio) : Llamada → Radio
  | .begin => r
  | .advertisingStop => { r with anunciando := false, activos := [] }
  | .advertisingStart _ =>
    { r with anunciando := true, activos := r.activos ++ r.cuerpo.toList }
  | .advertisingSetBeacon _ =>
    { r with cuerpo := some .beacon, enRegla := r.enRegla && !r.anunciando }
  | .advertisingAddData _ _ =>
    { r with cuerpo := some .cargaLibre, enRegla := r.enRegla && !r.anunciando }
  | .advertisingClearData =>
    { r with cuerpo := none, enRegla := r.enRegla && !r.anunciando }
  | .setTxPower _ => { r with enRegla := r.enRegla && !r.anunciando }
  | .setName _ => { r with enRegla := r.enRegla && !r.anunciando }
  | .scanResponseAddName => { r with enRegla := r.enRegla && !r.anunciando }
  | .scanResponseClearData => { r with enRegla := r.enRegla && !r.anunciando }
  | .advertisingAddFlags _ => { r with enRegla := r.enRegla && !r.anunciando }
  | .advertisingRestartOnDisconnect _ => { r with enRegla := r.enRegla && !r.anunciando }
  | .advertisingSetInterval _ _ => { r with enRegla := r.enRegla && !r.anunciando }
  | .advertisingSetFastTimeout _ => { r with enRegla := r.enRegla && !r.anunciando }
  | .advertisingAddService _ => { r with enRegla := r.enRegla && !r.anunciando }
  | .serviceBegin _ => r
  | .characteristicBegin _ => r

/-- The radio after a sequence of calls, oldest first. -/
def radioTras (llamadas : List Llamada) : Radio :=
  llamadas.foldl Radio.paso Radio.inicial

/-- What holds of the calls recorded in a state reached by the emitter: the
radio they amount to agrees with the stack on whether advertising is running,
no configuration call arrived while it was, at most one advertisement is
active, and none is when advertising is not running. -/
def Disciplinada (g : Globales) : Prop :=
  (radioTras g.bluefruit.llamadas).anunciando = g.bluefruit.anunciando ∧
  (radioTras g.bluefruit.llamadas).enRegla = true ∧
  (radioTras g.bluefruit.llamadas).activos.length ≤ 1 ∧
  (g.bluefruit.anunciando = false → (radioTras g.bluefruit.llamadas).activos = [])

/-! ## Arithmetic of `double` and conversions between number types -/

/-- A finite `double`: the number `mantisa * 2 ^ exponente`, where the
magnitude of `mantisa` is below `2 ^ 53`. -/
structure Doble where
  mantisa : Int
  exponente : Int
  deriving DecidableEq

/-- The rational number that a `double` stands for. -/
def Doble.valor (x : Doble) : ℚ :=
  x.mantisa * (2 : ℚ) ^ x.exponente

/-- The quotient `n / 2 ^ k` rounded to the nearest integer, a tie to the even
one: the rounding of `double` arithmetic. -/
def redondearAPar (n k : Nat) : Nat :=
  let q := n / 2 ^ k
  let r := n % 2 ^ k
  if 2 * r < 2 ^ k then q
  else if 2 ^ k < 2 * r then q + 1
  else if q % 2 = 0 then q else q + 1

/-- How many bits a number below `2 ^ 57` has beyond 53. -/
def bitsDeSobra (n : Nat) : Nat :=
  if n < 2 ^ 53 then 0
  else if n < 2 ^ 54 then 1
  else if n < 2 ^ 55 then 2
  else if n < 2 ^ 56 then 3
  else 4

/-- The product `x * 10` of `double` arithmetic: the exact product, whose
mantissa `10 * mantisa` has up to four bits too many, rounded to 53 bits to
the nearest, ties to even. A product by ten cannot underflow; overflow of the
exponent is left out (the values at hand are below `2 ^ 16`). -/
def Doble.porDiez (x : Doble) : Doble :=
  let n := (10 * x.mantisa).natAbs
  let k := bitsDeSobra n
  { mantisa := x.mantisa.sign * (redondearAPar n k : Nat), exponente := x.exponente + k }

/-- The integer part of a `double` (its value rounded toward zero), what a
conversion to an integer type keeps. -/
def Doble.truncar (x : Doble) : Int :=
  if 0 ≤ x.exponente then x.mantisa * 2 ^ x.exponente.toNat
  else x.mantisa.tdiv (2 ^ (-x.exponente).toNat)

/-- Conversion of an integer to `uint16_t`: modulo `2 ^ 16`. For the integer
part of a `double` outside `0 .. 65535` C leaves the conversion undefined;
the embedding wraps it as well. -/
def aUint16 (v : Int) : Nat :=
  (v % 65536).toNat

/-- Conversion of an integer to `int16_t`: modulo `2 ^ 16` into
`-32768 .. 32767`. For the integer part of a `double` outside that range C
leaves the conversion undefined; the embedding wraps it as well. -/
def aInt16 (v : Int) : Int :=
  if v % 65536 < 32768 then v % 65536 else v % 65536 - 65536

/-- Conversion of an integer to `uint8_t`: modulo `2 ^ 8`. -/
def aUint8 (v : Int) : Nat :=
  (v % 256).toNat

/-! ## LED.h and Publicador.h -/

/-- The board: the globals and the blocking waits done so far, oldest first,
each with its length in milliseconds and the state the stack was in while it
lasted. -/
structure Placa where
  globales : Globales
  esperas : List (Int × Bluefruit)
  deriving DecidableEq

/-- The board at start-up. -/
def Placa.inicial : Placa :=
  { globales := Globales.inicial, esperas := [] }

/-- Modelled from the spec: the blocking wait primitive `delay(milliseconds)`
of the Arduino core, which is not part of the repository. It waits the number
of milliseconds it is given; nothing else happens while it lasts. -/
def delay (ms : Int) (pl : Placa) : Placa :=
  { pl with esperas := pl.esperas ++ [(ms, pl.globales.bluefruit)] }

/-- Function `esperar(tiempo)` of `LED.h`: `delay(tiempo)`. -/
def esperar (tiempo : Int) (pl : Placa) : Placa :=
  delay tiempo pl

/-- Enumerator `MedicionesID::CO2`. -/
def MedicionesID.CO2 : Nat := 11

/-- Enumerator `MedicionesID::TEMPERATURA`. -/
def MedicionesID.TEMPERATURA : Nat := 12

/-- Enumerator `MedicionesID::RUIDO`. -/
def MedicionesID.RUIDO : Nat := 13

/-- Class `Publicador`: its members `beaconUUID`, `laEmisora` and `RSSI`. -/
structure Publicador where
  beaconUUID : List Nat
  laEmisora : EmisoraBLE
  RSSI : Int
  deriving DecidableEq

/-- Constructor `Publicador()`: the members take their initialisers, the UUID
`1 .. 16`, the emitter `"yesyes", 0x004c, 4` and the RSSI `-53`. -/
def Publicador.nuevo : Publicador :=
  { beaconUUID := [1, 2, 3, 4, 5, 6, 7, 8, 9, 10, 11, 12, 13, 14, 15, 16],
    laEmisora :=
      { nombreEmisora := [121, 101, 115, 121, 101, 115, 0],
        fabricanteID := 0x004c,
        txPower := 4 },
    RSSI := -53 }

/-- Method `Publicador::encenderEmisora`. -/
def Publicador.encenderEmisora (p : Publicador) (pl : Placa) : Placa :=
  { pl with globales := p.laEmisora.encenderEmisora pl.globales }

set_option linter.unusedVariables false in
/-- Method `publicarCO2(valorCO2, contador, tiempoEspera)`:
`uint16_t major = (uint16_t) (valorCO2 * 10)`, then `emitirAnuncioIBeacon`
with `major` (converted to its `int16_t` parameter), `valorCO2` (converted to
the `int16_t` parameter `minor`) and `RSSI` (converted to the `uint8_t`
parameter `rssi`), then `esperar(tiempoEspera)`, then `detenerAnuncio()`. The
parameter `contador` is not used. -/
def Publicador.publicarCO2 (p : Publicador) (valorCO2 : Doble) (contador : Nat)
    (tiempoEspera : Int) (pl : Placa) : Placa :=
  let major : Nat := aUint16 valorCO2.porDiez.truncar
  let g := p.laEmisora.emitirAnuncioIBeacon p.beaconUUID (aInt16 major)
    (aInt16 valorCO2.truncar) (aUint8 p.RSSI) pl.globales
  let pl := { pl with globales := g }
  let pl := esperar tiempoEspera pl
  { pl with globales := p.laEmisora.detenerAnuncio pl.globales }

/-- Method `publicarTemperatura(valorTemperatura, contador, tiempoEspera)`:
`uint16_t major = (MedicionesID::TEMPERATURA << 8) + contador`, then
`emitirAnuncioIBeacon` with `major`, `valorTemperatura` and `RSSI`, then
`esperar(tiempoEspera)`, then `detenerAnuncio()`. -/
def Publicador.publicarTemperatura (p : Publicador) (valorTemperatura : Int)
    (contador : Nat) (tiempoEspera : Int) (pl : Placa) : Placa :=
  let major : Nat := aUint16 (((MedicionesID.TEMPERATURA <<< 8) + contador : Nat) : Int)
  let g := p.laEmisora.emitirAnuncioIBeacon p.beaconUUID (aInt16 major) valorTemperatura
    (aUint8 p.RSSI) pl.globales
  let pl := { pl with globales := g }
  let pl := esperar tiempoEspera pl
  { pl with globales := p.laEmisora.detenerAnuncio pl.globales }

/-! ## ServicioEnEmisora.h: services and characteristics -/

/-- Class `ServicioEnEmisora::Caracteristica`: the UUID array and what the
stack's characteristic object has been given: properties, read permission,
write permission and maximum length, or nothing yet. -/
structure Caracteristica where
  uuidCaracteristica : List Nat
  configuracion : Option (Nat × Nat × Nat × Nat)
  deriving DecidableEq

/-- Constructor `Caracteristica(nombreCaracteristica_)`: the UUID array, which
starts as `'0' .. 'F'`, receives the name through `stringAUint8AlReves`. -/
def Caracteristica.nueva (nombreCaracteristica_ : List Nat) : Caracteristica :=
  { uuidCaracteristica := stringAUint8AlReves nombreCaracteristica_ uuidInicial 16,
    configuracion := none }

/-- Method `asignarPropiedadesPermisosYTamanyoDatos`: `setProperties`,
`setPermission` and `setMaxLen` on the stack's characteristic object. -/
def Caracteristica.asignarPropiedadesPermisosYTamanyoDatos (c : Caracteristica)
    (props permisoRead permisoWrite tam : Nat) : Caracteristica :=
  { c with configuracion := some (props, permisoRead, permisoWrite, tam) }

/-- Constructor `Caracteristica(nombreCaracteristica_, props, permisoRead,
permisoWrite, tam)`: the other constructor, then
`asignarPropiedadesPermisosYTamanyoDatos`. -/
def Caracteristica.nuevaCon (nombreCaracteristica_ : List Nat)
    (props permisoRead permisoWrite tam : Nat) : Caracteristica :=
  (Caracteristica.nueva nombreCaracteristica_).asignarPropiedadesPermisosYTamanyoDatos
    props permisoRead permisoWrite tam

/-- Method `Caracteristica::activar`: `laCaracteristica.begin()`, whose answer
is the `error` the stack gives, then the two writes to the serial port. -/
def Caracteristica.activar (c : Caracteristica) (error : Nat) (g : Globales) : Globales :=
  let g := g.llamar (.characteristicBegin c.uuidCaracteristica)
  let g := g.escribir " (*this).laCaracteristica.begin(); error = "
  g.escribir (toString error)

/-- Class `ServicioEnEmisora`: the UUID array and the vector of the
characteristics added, in the order of `push_back`. -/
structure ServicioEnEmisora where
  uuidServicio : List Nat
  lasCaracteristicas : List Caracteristica
  deriving DecidableEq

/-- Constructor `ServicioEnEmisora(nombreServicio_)`: the UUID array, which
starts as `'0' .. 'F'`, receives the name through `stringAUint8AlReves`; no
characteristic yet. -/
def ServicioEnEmisora.nuevo (nombreServicio_ : List Nat) : ServicioEnEmisora :=
  { uuidServicio := stringAUint8AlReves nombreServicio_ uuidInicial 16,
    lasCaracteristicas := [] }

/-- Method `anyadirCaracteristica`: `lasCaracteristicas.push_back(&car)`. -/
def ServicioEnEmisora.anyadirCaracteristica (s : ServicioEnEmisora) (car : Caracteristica) :
    ServicioEnEmisora :=
  { s with lasCaracteristicas := s.lasCaracteristicas ++ [car] }

/-- Loop `for (auto pCar : lasCaracteristicas) (*pCar).activar()` of
`activarServicio`; `errores` are the answers of the stack to the
registrations, in order. -/
def activarCaracteristicas : List Caracteristica → List Nat → Globales → Globales
  | [], _, g => g
  | pCar :: resto, errores, g =>
    activarCaracteristicas resto errores.tail (pCar.activar (errores.headD 0) g)

/-- Method `activarServicio`: `elServicio.begin()`, whose answer is the
`error` the stack gives, the two writes to `Serial` (`println` ends the
line), then the activation of every characteristic of the vector. The answer
of the stack is only written. -/
def ServicioEnEmisora.activarServicio (s : ServicioEnEmisora) (error : Nat)
    (errores : List Nat) (g : Globales) : Globales :=
  let g := g.llamar (.serviceBegin s.uuidServicio)
  let g := g.escribir " (*this).elServicio.begin(); error = "
  let g := g.escribir (toString error ++ "\r\n")
  activarCaracteristicas s.lasCaracteristicas errores g

/-- Method `anyadirServicio(servicio)`: the write to the serial port,
`Bluefruit.Advertising.addService(servicio)`, whose answer is the boolean `r`
the stack gives, one more write when it is false, and `r` is returned. -/
def EmisoraBLE.anyadirServicio (_e : EmisoraBLE) (servicio : ServicioEnEmisora) (r : Bool)
    (g : Globales) : Bool × Globales :=
  let g := g.escribir " Bluefruit.Advertising.addService( servicio ); \n"
  let g := g.llamar (.advertisingAddService servicio.uuidServicio)
  let g := if !r then g.escribir (" SERVICION NO AÑADIDO \n" ++ "\r\n") else g
  (r, g)

/-- Methods `anyadirServicioConSusCaracteristicas`, the two overloads: with
no characteristic left it is `anyadirServicio(servicio)`; with a first
characteristic and the rest it adds the first to the service and goes on with
the rest. The service is passed by reference: its new value is returned with
the boolean and the globals. -/
def EmisoraBLE.anyadirServicioConSusCaracteristicas (e : EmisoraBLE) :
    ServicioEnEmisora → List Caracteristica → Bool → Globales →
      Bool × ServicioEnEmisora × Globales
  | servicio, [], r, g =>
    ((e.anyadirServicio servicio r g).1, servicio, (e.anyadirServicio servicio r g).2)
  | servicio, caracteristica :: restoCaracteristicas, r, g =>
    e.anyadirServicioConSusCaracteristicas (servicio.anyadirCaracteristica caracteristica)
      restoCaracteristicas r g

/-- Method `anyadirServicioConSusCaracteristicasYActivar`:
`anyadirServicioConSusCaracteristicas`, then `servicio.activarServicio()`,
and the boolean of the former is returned. -/
def EmisoraBLE.anyadirServicioConSusCaracteristicasYActivar (e : EmisoraBLE)
    (servicio : ServicioEnEmisora) (restoCaracteristicas : List Caracteristica) (r : Bool)
    (error : Nat) (errores : List Nat) (g : Globales) :
    Bool × ServicioEnEmisora × Globales :=
  let anyadido := e.anyadirServicioConSusCaracteristicas servicio restoCaracteristicas r g
  (anyadido.1, anyadido.2.1, anyadido.2.1.activarServicio error errores anyadido.2.2)

/-- The sequence the variadic call is compared with: `anyadirCaracteristica`
on each characteristic in argument order, then `anyadirServicio`. -/
def EmisoraBLE.anyadirUnaAUnaYLuegoServicio (e : EmisoraBLE) (servicio : ServicioEnEmisora)
    (caracteristicas : List Caracteristica) (r : Bool) (g : Globales) :
    Bool × ServicioEnEmisora × Globales :=
  let conTodas := caracteristicas.foldl ServicioEnEmisora.anyadirCaracteristica servicio
  ((e.anyadirServicio conTodas r g).1, conTodas, (e.anyadirServicio conTodas r g).2)

/-- The state of the radio: whether it is powered and whether it is
advertising. -/
def Globales.estadoRadio (g : Globales) : Bool × Bool :=
  (g.bluefruit.encendida, g.bluefruit.anunciando)

/-! ### Lemmas on the reversal utilities -/

theorem strlen_append_nul (nombre resto : List Nat) (hn : ∀ c ∈ nombre, c ≠ 0) :
    strlen (nombre ++ 0 :: resto) = nombre.length := by
  induction nombre with
  | nil => simp [strlen]
  | cons c cs ih =>
    have hc : c ≠ 0 := hn c (List.mem_cons_self c cs)
    have hcs : ∀ d ∈ cs, d ≠ 0 := fun d hd => hn d (List.mem_cons_of_mem c hd)
    simp [strlen, hc, ih hcs]

theorem stringAUint8AlRevesBucle_length (pString : List Nat) (tamMax : Nat) :
    ∀ (k i : Nat) (buf : List Nat),
      (stringAUint8AlRevesBucle pString tamMax k i buf).length = buf.length := by
  intro k
  induction k with
  | zero => intro i buf; rfl
  | succ k ih =>
    intro i buf
    simp only [stringAUint8AlRevesBucle]
    rw [ih]
    simp

/-- After `k` iterations started at `i`, index `j` holds `pString[tamMax - 1 - j]`
when `tamMax - (i + k) ≤ j < tamMax - i` and its previous content otherwise. -/
theorem stringAUint8AlRevesBucle_getElem? (pString : List Nat) (tamMax : Nat) :
    ∀ (k i : Nat) (buf : List Nat) (j : Nat),
      i + k ≤ tamMax → buf.length = tamMax →
      (stringAUint8AlRevesBucle pString tamMax k i buf)[j]? =
        if tamMax - (i + k) ≤ j ∧ j < tamMax - i
        then some (pString.getD (tamMax - 1 - j) 0) else buf[j]? := by
  intro k
  induction k with
  | zero =>
    intro i buf j hik hlen
    have : ¬ (tamMax - (i + 0) ≤ j ∧ j < tamMax - i) := by omega
    simp only [stringAUint8AlRevesBucle, if_neg this]
  | succ k ih =>
    intro i buf j hik hlen
    simp only [stringAUint8AlRevesBucle]
    rw [ih (i + 1) _ j (by omega) (by simp [hlen]), List.getElem?_set]
    by_cases h1 : tamMax - (i + 1 + k) ≤ j ∧ j < tamMax - (i + 1)
    · have h2 : tamMax - (i + (k + 1)) ≤ j ∧ j < tamMax - i := by omega
      rw [if_pos h1, if_pos h2]
    · rw [if_neg h1]
      by_cases h3 : tamMax - i - 1 = j
      · have h2 : tamMax - (i + (k + 1)) ≤ j ∧ j < tamMax - i := by omega
        have h4 : tamMax - i - 1 < buf.length := by omega
        have h5 : tamMax - 1 - j = i := by omega
        rw [if_pos h3, if_pos h4, if_pos h2, h5]
      · have h2 : ¬ (tamMax - (i + (k + 1)) ≤ j ∧ j < tamMax - i) := by omega
        rw [if_neg h3, if_neg h2]

theorem some_getD_eq_getElem? (p : List Nat) (i : Nat) (h : i < p.length) :
    some (p.getD i 0) = p[i]? := by
  simp [List.getElem?_eq_getElem h]

/-- One swap of `alReves`: the two positions exchange their contents. -/
theorem intercambio_getElem? (p : List Nat) (a b j : Nat)
    (ha : a < p.length) (hb : b < p.length) :
    ((p.set a (p.getD b 0)).set b (p.getD a 0))[j]? =
      if j = b then p[a]? else if j = a then p[b]? else p[j]? := by
  rw [List.getElem?_set, List.getElem?_set, List.length_set]
  by_cases h1 : b = j
  · subst h1
    rw [if_pos rfl, if_pos hb, if_pos rfl]
    exact some_getD_eq_getElem? p a ha
  · have h1' : ¬ j = b := fun h => h1 h.symm
    rw [if_neg h1, if_neg h1']
    by_cases h2 : a = j
    · subst h2
      rw [if_pos rfl, if_pos ha, if_pos rfl]
      exact some_getD_eq_getElem? p b hb
    · have h2' : ¬ j = a := fun h => h2 h.symm
      rw [if_neg h2, if_neg h2']

theorem alRevesBucle_length (n : Nat) :
    ∀ (k i : Nat) (p : List Nat), (alRevesBucle n k i p).length = p.length := by
  intro k
  induction k with
  | zero => intro i p; rfl
  | succ k ih =>
    intro i p
    simp only [alRevesBucle]
    rw [ih]
    simp

/-- After `k` iterations started at `i`, the positions `i .. i + k - 1` and
their mirrors hold the mirrored content; the other positions are untouched. -/
theorem alRevesBucle_getElem? (n : Nat) :
    ∀ (k i : Nat) (p : List Nat) (j : Nat),
      i + k ≤ n / 2 → p.length = n →
      (alRevesBucle n k i p)[j]? =
        if (i ≤ j ∧ j < i + k) ∨ (n - (i + k) ≤ j ∧ j < n - i)
        then p[n - 1 - j]? else p[j]? := by
  intro k
  induction k with
  | zero =>
    intro i p j hik hlen
    have : ¬ ((i ≤ j ∧ j < i + 0) ∨ (n - (i + 0) ≤ j ∧ j < n - i)) := by omega
    simp only [alRevesBucle, if_neg this]
  | succ k ih =>
    intro i p j hik hlen
    have hi : i < p.length := by omega
    have hm : n - i - 1 < p.length := by omega
    simp only [alRevesBucle]
    rw [ih (i + 1) _ j (by omega) (by simp [hlen]),
      intercambio_getElem? p i (n - i - 1) j hi hm,
      intercambio_getElem? p i (n - i - 1) (n - 1 - j) hi hm]
    by_cases h1 : (i + 1 ≤ j ∧ j < i + 1 + k) ∨ (n - (i + 1 + k) ≤ j ∧ j < n - (i + 1))
    · have h2 : (i ≤ j ∧ j < i + (k + 1)) ∨ (n - (i + (k + 1)) ≤ j ∧ j < n - i) := by omega
      have h3 : ¬ n - 1 - j = n - i - 1 := by omega
      have h4 : ¬ n - 1 - j = i := by omega
      rw [if_pos h1, if_pos h2, if_neg h3, if_neg h4]
    · rw [if_neg h1]
      by_cases h3 : j = n - i - 1
      · have h2 : (i ≤ j ∧ j < i + (k + 1)) ∨ (n - (i + (k + 1)) ≤ j ∧ j < n - i) := by omega
        have h5 : n - 1 - j = i := by omega
        rw [if_pos h3, if_pos h2, h5]
      · rw [if_neg h3]
        by_cases h4 : j = i
        · have h2 : (i ≤ j ∧ j < i + (k + 1)) ∨ (n - (i + (k + 1)) ≤ j ∧ j < n - i) := by
            omega
          have h5 : n - 1 - j = n - i - 1 := by omega
          rw [if_pos h4, if_pos h2, h5]
        · have h2 : ¬ ((i ≤ j ∧ j < i + (k + 1)) ∨ (n - (i + (k + 1)) ≤ j ∧ j < n - i)) := by
            omega
          rw [if_neg h4, if_neg h2]

/-- Function `alReves` reverses an array of `n` elements. -/
theorem alReves_getElem? (p : List Nat) (n j : Nat) (hlen : p.length = n) (hj : j < n) :
    (alReves p n)[j]? = p[n - 1 - j]? := by
  unfold alReves
  rw [alRevesBucle_getElem? n (n / 2) 0 p j (by omega) hlen]
  by_cases h : (0 ≤ j ∧ j < 0 + n / 2) ∨ (n - (0 + n / 2) ≤ j ∧ j < n - 0)
  · rw [if_pos h]
  · rw [if_neg h]
    have : n - 1 - j = j := by omega
    rw [this]

/-- What `stringAUint8AlReves` leaves at index `j` of a `tamMax`-byte array,
for a NUL-terminated name. -/
theorem stringAUint8AlReves_getElem? (nombre resto pUint : List Nat) (tamMax j : Nat)
    (hnombre : ∀ c ∈ nombre, c ≠ 0) (hbuf : pUint.length = tamMax) :
    (stringAUint8AlReves (nombre ++ 0 :: resto) pUint tamMax)[j]? =
      if tamMax - min nombre.length tamMax ≤ j ∧ j < tamMax
      then nombre[tamMax - 1 - j]? else pUint[j]? := by
  unfold stringAUint8AlReves
  simp only [strlen_append_nul nombre resto hnombre]
  have hmin : (if nombre.length > tamMax then tamMax else nombre.length)
      = min nombre.length tamMax := by
    split <;> omega
  rw [hmin, stringAUint8AlRevesBucle_getElem? _ tamMax _ 0 pUint j (by omega) hbuf]
  by_cases h : tamMax - min nombre.length tamMax ≤ j ∧ j < tamMax
  · have h2 : tamMax - (0 + min nombre.length tamMax) ≤ j ∧ j < tamMax - 0 := by omega
    have h3 : tamMax - 1 - j < nombre.length := by omega
    rw [if_pos h, if_pos h2, List.getD_eq_getElem?_getD, List.getElem?_append_left h3,
      List.getElem?_eq_getElem h3]
    rfl
  · have h2 : ¬ (tamMax - (0 + min nombre.length tamMax) ≤ j ∧ j < tamMax - 0) := by omega
    rw [if_neg h, if_neg h2]

theorem stringAUint8AlReves_length (pString pUint : List Nat) (tamMax : Nat) :
    (stringAUint8AlReves pString pUint tamMax).length = pUint.length := by
  unfold stringAUint8AlReves
  exact stringAUint8AlRevesBucle_length _ _ _ _ _

/-! ### Lemmas on `memcpy` and on the call record -/

theorem memcpyBucle_length (origen : List Nat) (desplazamiento : Nat) :
    ∀ (k i : Nat) (d : List Nat),
      (memcpyBucle origen desplazamiento k i d).length = d.length := by
  intro k
  induction k with
  | zero => intro i d; rfl
  | succ k ih =>
    intro i d
    simp only [memcpyBucle]
    rw [ih]
    simp

/-- After `k` steps started at `i`, index `j` of the destination holds
`origen[j - desplazamiento]` when it lies in the copied range and its previous
content otherwise. -/
theorem memcpyBucle_getElem? (origen : List Nat) (desplazamiento : Nat) :
    ∀ (k i : Nat) (d : List Nat) (j : Nat),
      (memcpyBucle origen desplazamiento k i d)[j]? =
        if desplazamiento + i ≤ j ∧ j < desplazamiento + i + k ∧ j < d.length
        then some (origen.getD (j - desplazamiento) 0) else d[j]? := by
  intro k
  induction k with
  | zero =>
    intro i d j
    have : ¬ (desplazamiento + i ≤ j ∧ j < desplazamiento + i + 0 ∧ j < d.length) := by omega
    simp only [memcpyBucle, if_neg this]
  | succ k ih =>
    intro i d j
    simp only [memcpyBucle]
    rw [ih (i + 1) _ j, List.getElem?_set, List.length_set]
    by_cases h1 : desplazamiento + (i + 1) ≤ j ∧ j < desplazamiento + (i + 1) + k ∧ j < d.length
    · have h2 : desplazamiento + i ≤ j ∧ j < desplazamiento + i + (k + 1) ∧ j < d.length := by
        omega
      rw [if_pos h1, if_pos h2]
    · rw [if_neg h1]
      by_cases h3 : desplazamiento + i = j
      · by_cases h4 : desplazamiento + i < d.length
        · have h2 : desplazamiento + i ≤ j ∧ j < desplazamiento + i + (k + 1) ∧ j < d.length := by
            omega
          have h5 : j - desplazamiento = i := by omega
          rw [if_pos h3, if_pos h4, if_pos h2, h5]
        · have h2 : ¬ (desplazamiento + i ≤ j ∧ j < desplazamiento + i + (k + 1) ∧
              j < d.length) := by omega
          rw [if_pos h3, if_neg h4, if_neg h2, List.getElem?_eq_none (by omega)]
      · have h2 : ¬ (desplazamiento + i ≤ j ∧ j < desplazamiento + i + (k + 1) ∧
            j < d.length) := by omega
        rw [if_neg h3, if_neg h2]

theorem memcpy_length (d : List Nat) (desplazamiento : Nat) (origen : List Nat) (n : Nat) :
    (memcpy d desplazamiento origen n).length = d.length :=
  memcpyBucle_length origen desplazamiento n 0 d

/-- Function `memcpy` inside the destination and the source: the destination
keeps what lies before and after the copied range, which holds the first `n`
bytes of the source. -/
theorem memcpy_eq (d : List Nat) (desplazamiento : Nat) (origen : List Nat) (n : Nat)
    (hd : desplazamiento + n ≤ d.length) (ho : n ≤ origen.length) :
    memcpy d desplazamiento origen n =
      d.take desplazamiento ++ origen.take n ++ d.drop (desplazamiento + n) := by
  apply List.ext_getElem?
  intro j
  unfold memcpy
  rw [memcpyBucle_getElem?]
  by_cases h1 : j < desplazamiento
  · have h2 : ¬ (desplazamiento + 0 ≤ j ∧ j < desplazamiento + 0 + n ∧ j < d.length) := by
      omega
    rw [if_neg h2, List.append_assoc, List.getElem?_append_left (by simp; omega),
      List.getElem?_take, if_pos h1]
  · by_cases h3 : j < desplazamiento + n
    · have h2 : desplazamiento + 0 ≤ j ∧ j < desplazamiento + 0 + n ∧ j < d.length := by
        omega
      have h4 : j - desplazamiento < origen.length := by omega
      rw [if_pos h2, List.append_assoc, List.getElem?_append_right (by simp; omega),
        List.getElem?_append_left (by simp; omega), List.getElem?_take,
        List.getD_eq_getElem?_getD, List.getElem?_eq_getElem h4]
      simp only [List.length_take]
      have h5 : j - min desplazamiento d.length = j - desplazamiento := by omega
      have h6 : j - desplazamiento < n := by omega
      rw [h5, if_pos h6, List.getElem?_eq_getElem h4]
      rfl
    · have h2 : ¬ (desplazamiento + 0 ≤ j ∧ j < desplazamiento + 0 + n ∧ j < d.length) := by
        omega
      rw [if_neg h2, List.getElem?_append_right (by simp; omega), List.getElem?_drop]
      simp only [List.length_append, List.length_take]
      have h5 : desplazamiento + n + (j - (min desplazamiento d.length + min n origen.length))
          = j := by omega
      rw [h5]

/-- The first `desplazamiento` bytes of the destination are not written. -/
theorem memcpy_take (d : List Nat) (desplazamiento : Nat) (origen : List Nat) (n : Nat) :
    (memcpy d desplazamiento origen n).take desplazamiento = d.take desplazamiento := by
  apply List.ext_getElem?
  intro j
  rw [List.getElem?_take, List.getElem?_take]
  by_cases h1 : j < desplazamiento
  · unfold memcpy
    have h2 : ¬ (desplazamiento + 0 ≤ j ∧ j < desplazamiento + 0 + n ∧ j < d.length) := by
      omega
    rw [if_pos h1, if_pos h1, memcpyBucle_getElem?, if_neg h2]
  · rw [if_neg h1, if_neg h1]

theorem restoPrefijoYCarga_length (carga : List Nat) (tamanyoCarga : Nat) :
    (restoPrefijoYCarga carga tamanyoCarga).length = 25 := by
  unfold restoPrefijoYCarga
  rw [memcpy_length]
  rfl

theorem restoPrefijoYCarga_take (carga : List Nat) (tamanyoCarga : Nat) :
    (restoPrefijoYCarga carga tamanyoCarga).take 4 = [0x4c, 0x00, 0x02, 21] := by
  unfold restoPrefijoYCarga
  rw [memcpy_take]
  rfl

/-- The local array when the payload has the bytes that are copied: the
prefix, the first `n = min tamanyoCarga 21` bytes of the payload, and `21 - n`
times `'-'`. -/
theorem restoPrefijoYCarga_eq (carga : List Nat) (tamanyoCarga : Nat)
    (hc : min tamanyoCarga 21 ≤ carga.length) :
    restoPrefijoYCarga carga tamanyoCarga =
      [0x4c, 0x00, 0x02, 21] ++ carga.take (min tamanyoCarga 21)
        ++ List.replicate (21 - min tamanyoCarga 21) 45 := by
  unfold restoPrefijoYCarga
  have hmin : (if tamanyoCarga > 21 then 21 else tamanyoCarga) = min tamanyoCarga 21 := by
    split <;> omega
  rw [hmin]
  generalize hn : min tamanyoCarga 21 = n at hc
  have hn21 : n ≤ 21 := by omega
  rw [memcpy_eq restoPrefijoYCargaInicial 4 carga n
    (by simp [restoPrefijoYCargaInicial]; omega) hc]
  have hdrop : restoPrefijoYCargaInicial.drop (4 + n) = List.replicate (21 - n) 45 := by
    interval_cases n <;> rfl
  rw [hdrop]
  rfl

theorem detenerAnuncio_llamadas (e : EmisoraBLE) (g : Globales) :
    (e.detenerAnuncio g).bluefruit.llamadas =
      g.bluefruit.llamadas ++ (if e.estaAnunciando g then [Llamada.advertisingStop] else []) := by
  unfold EmisoraBLE.detenerAnuncio
  by_cases h : e.estaAnunciando g = true
  · simp [h, Globales.llamar, Bluefruit.llamar]
  · simp [h]

theorem bloquesAddData_append (xs ys : List Llamada) :
    bloquesAddData (xs ++ ys) = bloquesAddData xs ++ bloquesAddData ys := by
  induction xs with
  | nil => rfl
  | cons c cs ih => cases c <;> simp [bloquesAddData, ih]

theorem beaconsSetBeacon_append (xs ys : List Llamada) :
    beaconsSetBeacon (xs ++ ys) = beaconsSetBeacon xs ++ beaconsSetBeacon ys := by
  induction xs with
  | nil => rfl
  | cons c cs ih => cases c <;> simp [beaconsSetBeacon, ih]

/-- The calls that `emitirAnuncioIBeaconLibre` adds to the record. -/
theorem emitirAnuncioIBeaconLibre_llamadas (e : EmisoraBLE) (carga : List Nat)
    (tamanyoCarga : Nat) (g : Globales) :
    (e.emitirAnuncioIBeaconLibre carga tamanyoCarga g).bluefruit.llamadas =
      g.bluefruit.llamadas
        ++ (if e.estaAnunciando g then [Llamada.advertisingStop] else [])
        ++ [.advertisingClearData, .scanResponseClearData, .setName e.nombreEmisora,
            .scanResponseAddName,
            .advertisingAddFlags BLE_GAP_ADV_FLAGS_LE_ONLY_GENERAL_DISC_MODE,
            .advertisingAddData BLE_GAP_AD_TYPE_MANUFACTURER_SPECIFIC_DATA
              ((restoPrefijoYCarga carga tamanyoCarga).take (4 + 21)),
            .advertisingRestartOnDisconnect true, .advertisingSetInterval 100 100,
            .advertisingSetFastTimeout 1, .advertisingStart 0] := by
  simp only [EmisoraBLE.emitirAnuncioIBeaconLibre, Globales.escribir, Globales.llamar,
    Bluefruit.llamar, List.append_assoc, List.cons_append, List.nil_append]
  rw [detenerAnuncio_llamadas]
  simp

/-- The calls that `emitirAnuncioIBeacon` adds to the record. -/
theorem emitirAnuncioIBeacon_llamadas (e : EmisoraBLE) (beaconUUID : List Nat)
    (major minor : Int) (rssi : Nat) (g : Globales) :
    (e.emitirAnuncioIBeacon beaconUUID major minor rssi g).bluefruit.llamadas =
      g.bluefruit.llamadas
        ++ (if e.estaAnunciando g then [Llamada.advertisingStop] else [])
        ++ [.setTxPower e.txPower, .setName e.nombreEmisora, .scanResponseAddName,
            .advertisingSetBeacon
              { uuid128 := beaconUUID, major := major, minor := minor, rssi := rssi,
                manufacturer := e.fabricanteID },
            .advertisingRestartOnDisconnect true, .advertisingSetInterval 100 100,
            .advertisingStart 0] := by
  simp only [EmisoraBLE.emitirAnuncioIBeacon, Globales.llamar, Bluefruit.llamar,
    BLEBeacon.setManufacturer, List.append_assoc, List.cons_append, List.nil_append]
  rw [detenerAnuncio_llamadas]
  simp

/-- The block that `emitirAnuncioIBeaconLibre` hands to `addData`. -/
theorem emitirAnuncioIBeaconLibre_bloques (e : EmisoraBLE) (carga : List Nat)
    (tamanyoCarga : Nat) (g : Globales) :
    bloquesAddData (e.emitirAnuncioIBeaconLibre carga tamanyoCarga g).bluefruit.llamadas =
      bloquesAddData g.bluefruit.llamadas ++ [restoPrefijoYCarga carga tamanyoCarga] := by
  rw [emitirAnuncioIBeaconLibre_llamadas, bloquesAddData_append, bloquesAddData_append]
  have htake : (restoPrefijoYCarga carga tamanyoCarga).take (4 + 21)
      = restoPrefijoYCarga carga tamanyoCarga :=
    List.take_of_length_le (by rw [restoPrefijoYCarga_length])
  rw [htake]
  by_cases h : e.estaAnunciando g = true <;> simp [h, bloquesAddData]

/-- The beacon object that `emitirAnuncioIBeacon` hands to `setBeacon`. -/
theorem emitirAnuncioIBeacon_beacons (e : EmisoraBLE) (beaconUUID : List Nat)
    (major minor : Int) (rssi : Nat) (g : Globales) :
    beaconsSetBeacon (e.emitirAnuncioIBeacon beaconUUID major minor rssi g).bluefruit.llamadas =
      beaconsSetBeacon g.bluefruit.llamadas
        ++ [{ uuid128 := beaconUUID, major := major, minor := minor, rssi := rssi,
              manufacturer := e.fabricanteID }] := by
  rw [emitirAnuncioIBeacon_llamadas, beaconsSetBeacon_append, beaconsSetBeacon_append]
  by_cases h : e.estaAnunciando g = true <;> simp [h, beaconsSetBeacon]

theorem int16DeBytes_bytes16 (v : Int) (hv : -32768 ≤ v ∧ v < 32768) :
    int16DeBytes ((v % 65536).toNat / 256) ((v % 65536).toNat % 256) = v := by
  unfold int16DeBytes
  split <;> omega

theorem bytes16_length (v : Int) : (bytes16 v).length = 2 := rfl

/-- The frame of a beacon object with a 16-byte UUID, a measured power below
256 and a company ID below 65536. -/
theorem BLEBeacon.trama_eq (b : BLEBeacon) (huuid : b.uuid128.length = 16)
    (hrssi : b.rssi < 256) (hfab : b.manufacturer < 65536) :
    b.trama = [b.manufacturer % 256, b.manufacturer / 256, 0x02, 21]
      ++ (b.uuid128 ++ bytes16 b.major ++ bytes16 b.minor ++ [b.rssi]) := by
  unfold BLEBeacon.trama
  have h1 : memcpy (List.replicate 16 0) 0 b.uuid128 16 = b.uuid128 := by
    rw [memcpy_eq (List.replicate 16 0) 0 b.uuid128 16 (by simp) (by omega)]
    have h2 : b.uuid128.take 16 = b.uuid128 := List.take_of_length_le (by omega)
    rw [h2]
    simp
  have h3 : b.manufacturer / 256 % 256 = b.manufacturer / 256 := by omega
  have h4 : b.rssi % 256 = b.rssi := by omega
  rw [h1, h3, h4]
  simp

/-! ### Lemmas on sequences of operations -/

theorem radioTras_append (xs ys : List Llamada) :
    radioTras (xs ++ ys) = ys.foldl Radio.paso (radioTras xs) := by
  unfold radioTras
  rw [List.foldl_append]

theorem detenerAnuncio_anunciando (e : EmisoraBLE) (g : Globales) :
    (e.detenerAnuncio g).bluefruit.anunciando = false := by
  unfold EmisoraBLE.detenerAnuncio EmisoraBLE.estaAnunciando
  by_cases h : g.bluefruit.anunciando = true
  · simp [h, Globales.llamar, Bluefruit.llamar]
  · simp [h]

theorem encenderEmisora_llamadas (e : EmisoraBLE) (g : Globales) :
    (e.encenderEmisora g).bluefruit.llamadas =
      g.bluefruit.llamadas ++ [Llamada.begin]
        ++ (if e.estaAnunciando g then [Llamada.advertisingStop] else []) := by
  unfold EmisoraBLE.encenderEmisora
  rw [detenerAnuncio_llamadas]
  simp [EmisoraBLE.estaAnunciando, Globales.llamar, Bluefruit.llamar]

theorem emitirAnuncioIBeacon_anunciando (e : EmisoraBLE) (beaconUUID : List Nat)
    (major minor : Int) (rssi : Nat) (g : Globales) :
    (e.emitirAnuncioIBeacon beaconUUID major minor rssi g).bluefruit.anunciando = true := by
  simp [EmisoraBLE.emitirAnuncioIBeacon, Globales.llamar, Bluefruit.llamar]

theorem emitirAnuncioIBeaconLibre_anunciando (e : EmisoraBLE) (carga : List Nat)
    (tamanyoCarga : Nat) (g : Globales) :
    (e.emitirAnuncioIBeaconLibre carga tamanyoCarga g).bluefruit.anunciando = true := by
  simp [EmisoraBLE.emitirAnuncioIBeaconLibre, Globales.llamar, Globales.escribir,
    Bluefruit.llamar]

theorem disciplinada_inicial : Disciplinada Globales.inicial := by
  simp [Disciplinada, Globales.inicial, radioTras, Radio.inicial]

theorem disciplinada_ejecutar (e : EmisoraBLE) (g : Globales) (op : Operacion)
    (hg : Disciplinada g) : Disciplinada (e.ejecutar g op) := by
  obtain ⟨h1, h2, h3, h4⟩ := hg
  generalize hr : radioTras g.bluefruit.llamadas = r at h1 h2 h3 h4
  obtain ⟨ra, rc, rs, rr⟩ := r
  simp only at h1 h2 h3 h4
  subst h2
  cases op with
  | encenderEmisora =>
    unfold Disciplinada
    simp only [EmisoraBLE.ejecutar]
    rw [encenderEmisora_llamadas, List.append_assoc, radioTras_append, hr]
    have ha : (e.encenderEmisora g).bluefruit.anunciando = false := by
      unfold EmisoraBLE.encenderEmisora
      exact detenerAnuncio_anunciando e _
    rw [ha]
    by_cases h : g.bluefruit.anunciando = true
    · simp [EmisoraBLE.estaAnunciando, h, Radio.paso]
    · simp only [Bool.not_eq_true] at h
      have h5 := h4 h
      subst h5
      rw [h] at h1
      subst h1
      simp [EmisoraBLE.estaAnunciando, h, Radio.paso]
  | detenerAnuncio =>
    unfold Disciplinada
    simp only [EmisoraBLE.ejecutar]
    rw [detenerAnuncio_llamadas, radioTras_append, hr, detenerAnuncio_anunciando]
    by_cases h : g.bluefruit.anunciando = true
    · simp [EmisoraBLE.estaAnunciando, h, Radio.paso]
    · simp only [Bool.not_eq_true] at h
      have h5 := h4 h
      subst h5
      rw [h] at h1
      subst h1
      simp [EmisoraBLE.estaAnunciando, h, Radio.paso]
  | emitirAnuncioIBeacon beaconUUID major minor rssi =>
    unfold Disciplinada
    simp only [EmisoraBLE.ejecutar]
    rw [emitirAnuncioIBeacon_llamadas, List.append_assoc, radioTras_append, hr,
      emitirAnuncioIBeacon_anunciando]
    by_cases h : g.bluefruit.anunciando = true
    · simp [EmisoraBLE.estaAnunciando, h, Radio.paso]
    · simp only [Bool.not_eq_true] at h
      have h5 := h4 h
      subst h5
      rw [h] at h1
      subst h1
      simp [EmisoraBLE.estaAnunciando, h, Radio.paso]
  | emitirAnuncioIBeaconLibre carga tamanyoCarga =>
    unfold Disciplinada
    simp only [EmisoraBLE.ejecutar]
    rw [emitirAnuncioIBeaconLibre_llamadas, List.append_assoc, radioTras_append, hr,
      emitirAnuncioIBeaconLibre_anunciando]
    by_cases h : g.bluefruit.anunciando = true
    · simp [EmisoraBLE.estaAnunciando, h, Radio.paso]
    · simp only [Bool.not_eq_true] at h
      have h5 := h4 h
      subst h5
      rw [h] at h1
      subst h1
      simp [EmisoraBLE.estaAnunciando, h, Radio.paso]

theorem disciplinada_ejecutarTodas (e : EmisoraBLE) (ops : List Operacion) :
    ∀ g : Globales, Disciplinada g → Disciplinada (e.ejecutarTodas ops g) := by
  induction ops with
  | nil => intro g hg; exact hg
  | cons op resto ih =>
    intro g hg
    exact ih (e.ejecutar g op) (disciplinada_ejecutar e g op hg)

/-! ## Properties of the UUID encoder -/

/-- C1: for a NUL-terminated name of length `L` and an array of `tamMax`
bytes, `stringAUint8AlReves` returns the array (there is no error result,
whatever `L`) in which index `tamMax - 1 - i` holds `nombre[i]` for every
`i < min L tamMax`, and every other index holds what it held before. -/
theorem stringAUint8AlReves_copia_al_reves (nombre resto pUint : List Nat) (tamMax : Nat)
    (hnombre : ∀ c ∈ nombre, c ≠ 0) (hbuf : pUint.length = tamMax) :
    (stringAUint8AlReves (nombre ++ 0 :: resto) pUint tamMax).length = tamMax ∧
    (∀ i, i < min nombre.length tamMax →
      (stringAUint8AlReves (nombre ++ 0 :: resto) pUint tamMax)[tamMax - 1 - i]?
        = nombre[i]?) ∧
    (∀ j, (∀ i, i < min nombre.length tamMax → j ≠ tamMax - 1 - i) →
      (stringAUint8AlReves (nombre ++ 0 :: resto) pUint tamMax)[j]? = pUint[j]?) := by
  refine ⟨?_, ?_, ?_⟩
  · rw [stringAUint8AlReves_length, hbuf]
  · intro i hi
    rw [stringAUint8AlReves_getElem? nombre resto pUint tamMax _ hnombre hbuf]
    have h : tamMax - min nombre.length tamMax ≤ tamMax - 1 - i ∧ tamMax - 1 - i < tamMax := by
      omega
    have h2 : tamMax - 1 - (tamMax - 1 - i) = i := by omega
    rw [if_pos h, h2]
  · intro j hj
    rw [stringAUint8AlReves_getElem? nombre resto pUint tamMax _ hnombre hbuf]
    by_cases h : tamMax - min nombre.length tamMax ≤ j ∧ j < tamMax
    · exact absurd (by omega) (hj (tamMax - 1 - j) (by omega))
    · rw [if_neg h]

/-- C1, at the name "AB" and the initial UUID array: the array comes back
with `'B'`, `'A'` in its last two positions. -/
theorem stringAUint8AlReves_copia_al_reves_witness :
    (stringAUint8AlReves ([65, 66] ++ 0 :: []) uuidInicial 16).length = 16 ∧
    (∀ i, i < min [65, 66].length 16 →
      (stringAUint8AlReves ([65, 66] ++ 0 :: []) uuidInicial 16)[16 - 1 - i]?
        = [65, 66][i]?) ∧
    (∀ j, (∀ i, i < min [65, 66].length 16 → j ≠ 16 - 1 - i) →
      (stringAUint8AlReves ([65, 66] ++ 0 :: []) uuidInicial 16)[j]? = uuidInicial[j]?) :=
  stringAUint8AlReves_copia_al_reves [65, 66] [] uuidInicial 16 (by decide) (by decide)

/-- C2: a name of at most 16 bytes encoded by `stringAUint8AlReves` into a
16-byte array and reversed again by `alReves` is read back in order from the
start of the array; with 16 bytes the whole array is the name. -/
theorem alReves_stringAUint8AlReves (nombre resto pUint : List Nat)
    (hnombre : ∀ c ∈ nombre, c ≠ 0) (hlargo : nombre.length ≤ 16)
    (hbuf : pUint.length = 16) :
    (alReves (stringAUint8AlReves (nombre ++ 0 :: resto) pUint 16) 16).take nombre.length
        = nombre ∧
    (nombre.length = 16 →
      alReves (stringAUint8AlReves (nombre ++ 0 :: resto) pUint 16) 16 = nombre) := by
  have hlen : (stringAUint8AlReves (nombre ++ 0 :: resto) pUint 16).length = 16 := by
    rw [stringAUint8AlReves_length, hbuf]
  have hlen2 : (alReves (stringAUint8AlReves (nombre ++ 0 :: resto) pUint 16) 16).length
      = 16 := by
    unfold alReves
    rw [alRevesBucle_length, hlen]
  have htake : (alReves (stringAUint8AlReves (nombre ++ 0 :: resto) pUint 16) 16).take
      nombre.length = nombre := by
    apply List.ext_getElem?
    intro j
    rw [List.getElem?_take]
    by_cases hj : j < nombre.length
    · rw [if_pos hj, alReves_getElem? _ 16 j hlen (by omega),
        stringAUint8AlReves_getElem? nombre resto pUint 16 _ hnombre hbuf]
      have h : 16 - min nombre.length 16 ≤ 16 - 1 - j ∧ 16 - 1 - j < 16 := by omega
      have h2 : 16 - 1 - (16 - 1 - j) = j := by omega
      rw [if_pos h, h2]
    · rw [if_neg hj, List.getElem?_eq_none (by omega)]
  refine ⟨htake, ?_⟩
  intro h16
  have hall : (alReves (stringAUint8AlReves (nombre ++ 0 :: resto) pUint 16) 16).take
      nombre.length = alReves (stringAUint8AlReves (nombre ++ 0 :: resto) pUint 16) 16 :=
    List.take_of_length_le (by omega)
  rw [← hall]
  exact htake

/-- C2, at the name "co2" and the initial UUID array. -/
theorem alReves_stringAUint8AlReves_witness :
    (alReves (stringAUint8AlReves ([99, 111, 50] ++ 0 :: []) uuidInicial 16) 16).take
        [99, 111, 50].length = [99, 111, 50] ∧
    ([99, 111, 50].length = 16 →
      alReves (stringAUint8AlReves ([99, 111, 50] ++ 0 :: []) uuidInicial 16) 16
        = [99, 111, 50]) :=
  alReves_stringAUint8AlReves [99, 111, 50] [] uuidInicial (by decide) (by decide)
    (by decide)

/-- C3, as stated, fails: with the one-byte name "A" in the 16-byte initial
array, index 15 lies in `L .. tamMax - 1` and does not keep its prior value
`'F'`: it receives `'A'`. -/
theorem stringAUint8AlReves_altos_cambian :
    [65].length < 16 ∧ [65].length ≤ 15 ∧ 15 < 16 ∧
    (stringAUint8AlReves ([65] ++ 0 :: []) uuidInicial 16)[15]? = some 65 ∧
    uuidInicial[15]? = some 70 ∧
    (stringAUint8AlReves ([65] ++ 0 :: []) uuidInicial 16)[15]? ≠ uuidInicial[15]? := by
  decide

/-- C3, amended: for a name of length `L < tamMax`, the bytes that
`stringAUint8AlReves` leaves unfilled are the `tamMax - L` bytes at the lowest
indices `0 .. tamMax - L - 1`, which keep their prior value; the `L` highest
indices hold the name back to front. -/
theorem stringAUint8AlReves_bajos_intactos (nombre resto pUint : List Nat) (tamMax : Nat)
    (hnombre : ∀ c ∈ nombre, c ≠ 0) (hbuf : pUint.length = tamMax)
    (hlargo : nombre.length < tamMax) :
    (∀ j, j < tamMax - nombre.length →
      (stringAUint8AlReves (nombre ++ 0 :: resto) pUint tamMax)[j]? = pUint[j]?) ∧
    (∀ i, i < nombre.length →
      (stringAUint8AlReves (nombre ++ 0 :: resto) pUint tamMax)[tamMax - 1 - i]?
        = nombre[i]?) := by
  refine ⟨?_, ?_⟩
  · intro j hj
    rw [stringAUint8AlReves_getElem? nombre resto pUint tamMax _ hnombre hbuf]
    have h : ¬ (tamMax - min nombre.length tamMax ≤ j ∧ j < tamMax) := by omega
    rw [if_neg h]
  · intro i hi
    rw [stringAUint8AlReves_getElem? nombre resto pUint tamMax _ hnombre hbuf]
    have h : tamMax - min nombre.length tamMax ≤ tamMax - 1 - i ∧ tamMax - 1 - i < tamMax := by
      omega
    have h2 : tamMax - 1 - (tamMax - 1 - i) = i := by omega
    rw [if_pos h, h2]

/-- C3, amended, at the name "A" and the initial UUID array. -/
theorem stringAUint8AlReves_bajos_intactos_witness :
    (∀ j, j < 16 - [65].length →
      (stringAUint8AlReves ([65] ++ 0 :: []) uuidInicial 16)[j]? = uuidInicial[j]?) ∧
    (∀ i, i < [65].length →
      (stringAUint8AlReves ([65] ++ 0 :: []) uuidInicial 16)[16 - 1 - i]? = [65][i]?) :=
  stringAUint8AlReves_bajos_intactos [65] [] uuidInicial 16 (by decide) (by decide)
    (by decide)

/-! ## Properties of the emitter -/

/-- C4: whatever the payload and `tamanyoCarga`, `emitirAnuncioIBeaconLibre`
hands exactly one block to `addData`; it is 25 bytes long and starts with
`0x4C, 0x00, 0x02, 21`, bytes in which neither the payload nor its length
occurs. -/
theorem emitirAnuncioIBeaconLibre_prefijo_fijo (e : EmisoraBLE) (carga : List Nat)
    (tamanyoCarga : Nat) (g : Globales) :
    ∃ bloque : List Nat,
      bloquesAddData (e.emitirAnuncioIBeaconLibre carga tamanyoCarga g).bluefruit.llamadas =
        bloquesAddData g.bluefruit.llamadas ++ [bloque] ∧
      bloque.length = 25 ∧
      bloque.take 4 = [0x4C, 0x00, 0x02, 21] :=
  ⟨restoPrefijoYCarga carga tamanyoCarga,
    emitirAnuncioIBeaconLibre_bloques e carga tamanyoCarga g,
    restoPrefijoYCarga_length carga tamanyoCarga,
    restoPrefijoYCarga_take carga tamanyoCarga⟩

/-- C5: with `tamanyoCarga > 21` (and a payload that has that many bytes),
bytes 4..24 of the block handed to `addData` are the first 21 bytes of the
payload, the call does what it does on those 21 bytes with `tamanyoCarga = 21`,
and any payload with the same first 21 bytes and a length above 21 gives the
same result. -/
theorem emitirAnuncioIBeaconLibre_trunca (e : EmisoraBLE) (carga : List Nat)
    (tamanyoCarga : Nat) (g : Globales)
    (hmas : 21 < tamanyoCarga) (hcarga : tamanyoCarga ≤ carga.length) :
    (∃ bloque : List Nat,
      bloquesAddData (e.emitirAnuncioIBeaconLibre carga tamanyoCarga g).bluefruit.llamadas =
        bloquesAddData g.bluefruit.llamadas ++ [bloque] ∧
      bloque.length = 25 ∧
      bloque.drop 4 = carga.take 21 ∧
      (bloque.drop 4).length = 21) ∧
    e.emitirAnuncioIBeaconLibre carga tamanyoCarga g =
      e.emitirAnuncioIBeaconLibre (carga.take 21) 21 g ∧
    (∀ (otra : List Nat) (otroTamanyo : Nat), 21 < otroTamanyo →
      otra.take 21 = carga.take 21 →
      e.emitirAnuncioIBeaconLibre otra otroTamanyo g =
        e.emitirAnuncioIBeaconLibre carga tamanyoCarga g) := by
  have hmin : min tamanyoCarga 21 = 21 := by omega
  have hb : restoPrefijoYCarga carga tamanyoCarga = [0x4c, 0x00, 0x02, 21] ++ carga.take 21 := by
    rw [restoPrefijoYCarga_eq carga tamanyoCarga (by omega), hmin]
    simp
  have hlen : (carga.take 21).length = 21 := by
    rw [List.length_take]
    omega
  refine ⟨⟨restoPrefijoYCarga carga tamanyoCarga,
    emitirAnuncioIBeaconLibre_bloques e carga tamanyoCarga g,
    restoPrefijoYCarga_length carga tamanyoCarga, ?_, ?_⟩, ?_, ?_⟩
  · rw [hb]
    rfl
  · rw [hb]
    simpa using hlen
  · have hb2 : restoPrefijoYCarga (carga.take 21) 21
        = [0x4c, 0x00, 0x02, 21] ++ carga.take 21 := by
      rw [restoPrefijoYCarga_eq (carga.take 21) 21 (by rw [hlen]; omega)]
      simp
    simp only [EmisoraBLE.emitirAnuncioIBeaconLibre, hb, hb2]
  · intro otra otroTamanyo hotro higual
    have hlen2 : 21 ≤ otra.length := by
      have h1 : (otra.take 21).length = 21 := by rw [higual, hlen]
      rw [List.length_take] at h1
      omega
    have hb3 : restoPrefijoYCarga otra otroTamanyo
        = [0x4c, 0x00, 0x02, 21] ++ carga.take 21 := by
      have hmin2 : min otroTamanyo 21 = 21 := by omega
      rw [restoPrefijoYCarga_eq otra otroTamanyo (by omega), hmin2, higual]
      simp
    simp only [EmisoraBLE.emitirAnuncioIBeaconLibre, hb, hb3]

/-- C5, at the 22-byte payload `1, 2, ..., 22` with `tamanyoCarga = 22`, on
the emitter of the header example at start-up. -/
theorem emitirAnuncioIBeaconLibre_trunca_witness :
    (∃ bloque : List Nat,
      bloquesAddData (emisoraEjemplo.emitirAnuncioIBeaconLibre
        [1, 2, 3, 4, 5, 6, 7, 8, 9, 10, 11, 12, 13, 14, 15, 16, 17, 18, 19, 20, 21, 22] 22
        Globales.inicial).bluefruit.llamadas =
        bloquesAddData Globales.inicial.bluefruit.llamadas ++ [bloque] ∧
      bloque.length = 25 ∧
      bloque.drop 4 = [1, 2, 3, 4, 5, 6, 7, 8, 9, 10, 11, 12, 13, 14, 15, 16, 17, 18, 19, 20,
        21, 22].take 21 ∧
      (bloque.drop 4).length = 21) ∧
    emisoraEjemplo.emitirAnuncioIBeaconLibre
        [1, 2, 3, 4, 5, 6, 7, 8, 9, 10, 11, 12, 13, 14, 15, 16, 17, 18, 19, 20, 21, 22] 22
        Globales.inicial =
      emisoraEjemplo.emitirAnuncioIBeaconLibre
        ([1, 2, 3, 4, 5, 6, 7, 8, 9, 10, 11, 12, 13, 14, 15, 16, 17, 18, 19, 20,
          21, 22].take 21) 21 Globales.inicial ∧
    (∀ (otra : List Nat) (otroTamanyo : Nat), 21 < otroTamanyo →
      otra.take 21 = [1, 2, 3, 4, 5, 6, 7, 8, 9, 10, 11, 12, 13, 14, 15, 16, 17, 18, 19, 20,
        21, 22].take 21 →
      emisoraEjemplo.emitirAnuncioIBeaconLibre otra otroTamanyo Globales.inicial =
        emisoraEjemplo.emitirAnuncioIBeaconLibre
          [1, 2, 3, 4, 5, 6, 7, 8, 9, 10, 11, 12, 13, 14, 15, 16, 17, 18, 19, 20, 21, 22] 22
          Globales.inicial) :=
  emitirAnuncioIBeaconLibre_trunca emisoraEjemplo
    [1, 2, 3, 4, 5, 6, 7, 8, 9, 10, 11, 12, 13, 14, 15, 16, 17, 18, 19, 20, 21, 22] 22
    Globales.inicial (by decide) (by decide)

/-- C6: with `tamanyoCarga = n < 21` (and a payload that has `n` bytes), the
block handed to `addData` holds the `n` payload bytes in order from index 4
and `'-'` (45) at every index from `4 + n` to 24; with `n = 0` all 21 payload
positions hold `'-'`. -/
theorem emitirAnuncioIBeaconLibre_relleno (e : EmisoraBLE) (carga : List Nat)
    (tamanyoCarga : Nat) (g : Globales)
    (hmenos : tamanyoCarga < 21) (hcarga : tamanyoCarga ≤ carga.length) :
    ∃ bloque : List Nat,
      bloquesAddData (e.emitirAnuncioIBeaconLibre carga tamanyoCarga g).bluefruit.llamadas =
        bloquesAddData g.bluefruit.llamadas ++ [bloque] ∧
      bloque.length = 25 ∧
      (∀ i, i < tamanyoCarga → bloque[4 + i]? = carga[i]?) ∧
      (∀ j, 4 + tamanyoCarga ≤ j → j < 25 → bloque[j]? = some 45) ∧
      bloque = [0x4C, 0x00, 0x02, 21] ++ carga.take tamanyoCarga
        ++ List.replicate (21 - tamanyoCarga) 45 := by
  have hmin : min tamanyoCarga 21 = tamanyoCarga := by omega
  have hb : restoPrefijoYCarga carga tamanyoCarga = [0x4c, 0x00, 0x02, 21]
      ++ carga.take tamanyoCarga ++ List.replicate (21 - tamanyoCarga) 45 := by
    rw [restoPrefijoYCarga_eq carga tamanyoCarga (by omega), hmin]
  have hlt : (carga.take tamanyoCarga).length = tamanyoCarga := by
    rw [List.length_take]
    omega
  refine ⟨restoPrefijoYCarga carga tamanyoCarga,
    emitirAnuncioIBeaconLibre_bloques e carga tamanyoCarga g,
    restoPrefijoYCarga_length carga tamanyoCarga, ?_, ?_, hb⟩
  · intro i hi
    rw [hb, List.append_assoc, List.getElem?_append_right (by simp),
      List.getElem?_append_left (by simp; omega), List.getElem?_take]
    simp [hi]
  · intro j hj1 hj2
    rw [hb, List.getElem?_append_right (by simp; omega), List.getElem?_replicate]
    simp only [List.length_append, List.length_cons, List.length_nil, hlt]
    rw [if_pos (by omega)]

/-- C6, at the empty payload with `tamanyoCarga = 0`, on the emitter of the
header example at start-up. -/
theorem emitirAnuncioIBeaconLibre_relleno_witness :
    ∃ bloque : List Nat,
      bloquesAddData (emisoraEjemplo.emitirAnuncioIBeaconLibre [] 0
        Globales.inicial).bluefruit.llamadas =
        bloquesAddData Globales.inicial.bluefruit.llamadas ++ [bloque] ∧
      bloque.length = 25 ∧
      (∀ i, i < 0 → bloque[4 + i]? = ([] : List Nat)[i]?) ∧
      (∀ j, 4 + 0 ≤ j → j < 25 → bloque[j]? = some 45) ∧
      bloque = [0x4C, 0x00, 0x02, 21] ++ ([] : List Nat).take 0
        ++ List.replicate (21 - 0) 45 :=
  emitirAnuncioIBeaconLibre_relleno emisoraEjemplo [] 0 Globales.inicial (by decide)
    (by decide)

/-- C7, as stated, fails: on the emitter of the header example, whose
`fabricanteID` is `0x4C00`, the block of `emitirAnuncioIBeaconLibre` starts
with the company-ID bytes `0x4C, 0x00`, while the beacon frame of
`emitirAnuncioIBeacon` on the same emitter starts with `0x00, 0x4C`, the
configured identifier least significant byte first. -/
theorem emitirAnuncioIBeaconLibre_fabricanteID_fijo :
    emisoraEjemplo.fabricanteID = 0x4C00 ∧
    (bloquesAddData (emisoraEjemplo.emitirAnuncioIBeaconLibre [] 0
      (emisoraEjemplo.encenderEmisora Globales.inicial)).bluefruit.llamadas).map (List.take 4)
      = [[0x4C, 0x00, 0x02, 21]] ∧
    (beaconsSetBeacon (emisoraEjemplo.emitirAnuncioIBeacon
      [1, 2, 3, 4, 5, 6, 7, 8, 9, 10, 11, 12, 13, 14, 15, 16] 0 0 0
      (emisoraEjemplo.encenderEmisora Globales.inicial)).bluefruit.llamadas).map
        (fun b => b.trama.take 4)
      = [[0x00, 0x4C, 0x02, 21]] ∧
    [emisoraEjemplo.fabricanteID % 256, emisoraEjemplo.fabricanteID / 256] = [0x00, 0x4C] := by
  decide

/-- C7, amended: for every emitter, whatever its 16-bit `fabricanteID`, the
block of `emitirAnuncioIBeaconLibre` starts with the four fixed bytes
`0x4C, 0x00` (company ID), `0x02` (type) and 21 (length), while the beacon
frame of `emitirAnuncioIBeacon` on that emitter starts with the two bytes of
`fabricanteID`, least significant first, then `0x02` and 21; the two
prefixes are the same exactly when `fabricanteID` is `0x004C`. -/
theorem emitirAnuncioIBeaconLibre_prefijo_y_fabricanteID (e : EmisoraBLE)
    (carga : List Nat) (tamanyoCarga : Nat) (beaconUUID : List Nat) (major minor : Int)
    (rssi : Nat) (g : Globales) (hfab : e.fabricanteID < 65536) :
    ∃ (bloque : List Nat) (beacon : BLEBeacon),
      bloquesAddData (e.emitirAnuncioIBeaconLibre carga tamanyoCarga g).bluefruit.llamadas =
        bloquesAddData g.bluefruit.llamadas ++ [bloque] ∧
      beaconsSetBeacon
          (e.emitirAnuncioIBeacon beaconUUID major minor rssi g).bluefruit.llamadas =
        beaconsSetBeacon g.bluefruit.llamadas ++ [beacon] ∧
      bloque.take 4 = [0x4C, 0x00, 0x02, 21] ∧
      beacon.trama.take 4 = [e.fabricanteID % 256, e.fabricanteID / 256, 0x02, 21] ∧
      (bloque.take 4 = beacon.trama.take 4 ↔ e.fabricanteID = 0x004C) := by
  have htrama : (BLEBeacon.trama
      { uuid128 := beaconUUID, major := major, minor := minor, rssi := rssi,
        manufacturer := e.fabricanteID }).take 4
      = [e.fabricanteID % 256, e.fabricanteID / 256, 0x02, 21] := by
    have h1 : e.fabricanteID / 256 % 256 = e.fabricanteID / 256 := by omega
    simp only [BLEBeacon.trama, List.append_assoc, List.cons_append, List.nil_append,
      List.take_succ_cons, List.take_zero, h1]
  refine ⟨restoPrefijoYCarga carga tamanyoCarga, _,
    emitirAnuncioIBeaconLibre_bloques e carga tamanyoCarga g,
    emitirAnuncioIBeacon_beacons e beaconUUID major minor rssi g,
    restoPrefijoYCarga_take carga tamanyoCarga, htrama, ?_⟩
  rw [restoPrefijoYCarga_take, htrama]
  constructor
  · intro h
    simp only [List.cons.injEq] at h
    omega
  · intro h
    rw [h]

/-- C7, amended, at the emitter of the publisher, whose `fabricanteID` is
`0x004c`, with the payload "hola" and the beacon `1 .. 16`, 1234, 123, 203 at
start-up: there the two prefixes coincide. -/
theorem emitirAnuncioIBeaconLibre_prefijo_y_fabricanteID_witness :
    ∃ (bloque : List Nat) (beacon : BLEBeacon),
      bloquesAddData (Publicador.nuevo.laEmisora.emitirAnuncioIBeaconLibre
        [104, 111, 108, 97] 4 Globales.inicial).bluefruit.llamadas =
        bloquesAddData Globales.inicial.bluefruit.llamadas ++ [bloque] ∧
      beaconsSetBeacon
          (Publicador.nuevo.laEmisora.emitirAnuncioIBeacon
            [1, 2, 3, 4, 5, 6, 7, 8, 9, 10, 11, 12, 13, 14, 15, 16] 1234 123 203
            Globales.inicial).bluefruit.llamadas =
        beaconsSetBeacon Globales.inicial.bluefruit.llamadas ++ [beacon] ∧
      bloque.take 4 = [0x4C, 0x00, 0x02, 21] ∧
      beacon.trama.take 4 = [Publicador.nuevo.laEmisora.fabricanteID % 256,
        Publicador.nuevo.laEmisora.fabricanteID / 256, 0x02, 21] ∧
      (bloque.take 4 = beacon.trama.take 4 ↔
        Publicador.nuevo.laEmisora.fabricanteID = 0x004C) :=
  emitirAnuncioIBeaconLibre_prefijo_y_fabricanteID Publicador.nuevo.laEmisora
    [104, 111, 108, 97] 4 [1, 2, 3, 4, 5, 6, 7, 8, 9, 10, 11, 12, 13, 14, 15, 16] 1234 123 203
    Globales.inicial (by decide)

/-- C8: for a 16-byte UUID, `int16_t` values major and minor, a `uint8_t`
measured power and a 16-bit `fabricanteID`, `emitirAnuncioIBeacon` hands
exactly one beacon object to `setBeacon`; its frame starts with the two bytes
of `fabricanteID`, the type `0x02` and the length 21, bytes in which the UUID,
major, minor and measured power do not occur, and goes on with a payload of
exactly 21 bytes: the UUID, two bytes that decode to major, two bytes that
decode to minor, and the measured power. -/
theorem emitirAnuncioIBeacon_trama (e : EmisoraBLE) (beaconUUID : List Nat)
    (major minor : Int) (rssi : Nat) (g : Globales)
    (huuid : beaconUUID.length = 16)
    (hmajor : -32768 ≤ major ∧ major < 32768)
    (hminor : -32768 ≤ minor ∧ minor < 32768)
    (hrssi : rssi < 256) (hfab : e.fabricanteID < 65536) :
    ∃ beacon : BLEBeacon,
      beaconsSetBeacon
          (e.emitirAnuncioIBeacon beaconUUID major minor rssi g).bluefruit.llamadas =
        beaconsSetBeacon g.bluefruit.llamadas ++ [beacon] ∧
      beacon.trama.take 4 = [e.fabricanteID % 256, e.fabricanteID / 256, 0x02, 21] ∧
      (beacon.trama.drop 4).length = 21 ∧
      beacon.trama.drop 4 = beaconUUID ++ bytes16 major ++ bytes16 minor ++ [rssi] ∧
      int16DeBytes ((bytes16 major).getD 0 0) ((bytes16 major).getD 1 0) = major ∧
      int16DeBytes ((bytes16 minor).getD 0 0) ((bytes16 minor).getD 1 0) = minor := by
  have ht := BLEBeacon.trama_eq
    { uuid128 := beaconUUID, major := major, minor := minor, rssi := rssi,
      manufacturer := e.fabricanteID } huuid hrssi hfab
  refine ⟨_, emitirAnuncioIBeacon_beacons e beaconUUID major minor rssi g, ?_, ?_, ?_,
    int16DeBytes_bytes16 major hmajor, int16DeBytes_bytes16 minor hminor⟩
  · rw [ht]
    rfl
  · rw [ht]
    simp [huuid, bytes16_length]
  · rw [ht]
    rfl

/-- C8, at the UUID `1..16`, major 1234, minor -2, measured power 203, on the
emitter of the header example at start-up. -/
theorem emitirAnuncioIBeacon_trama_witness :
    ∃ beacon : BLEBeacon,
      beaconsSetBeacon
          (emisoraEjemplo.emitirAnuncioIBeacon
            [1, 2, 3, 4, 5, 6, 7, 8, 9, 10, 11, 12, 13, 14, 15, 16] 1234 (-2) 203
            Globales.inicial).bluefruit.llamadas =
        beaconsSetBeacon Globales.inicial.bluefruit.llamadas ++ [beacon] ∧
      beacon.trama.take 4
        = [emisoraEjemplo.fabricanteID % 256, emisoraEjemplo.fabricanteID / 256, 0x02, 21] ∧
      (beacon.trama.drop 4).length = 21 ∧
      beacon.trama.drop 4 = [1, 2, 3, 4, 5, 6, 7, 8, 9, 10, 11, 12, 13, 14, 15, 16]
        ++ bytes16 1234 ++ bytes16 (-2) ++ [203] ∧
      int16DeBytes ((bytes16 1234).getD 0 0) ((bytes16 1234).getD 1 0) = 1234 ∧
      int16DeBytes ((bytes16 (-2)).getD 0 0) ((bytes16 (-2)).getD 1 0) = -2 :=
  emitirAnuncioIBeacon_trama emisoraEjemplo
    [1, 2, 3, 4, 5, 6, 7, 8, 9, 10, 11, 12, 13, 14, 15, 16] 1234 (-2) 203 Globales.inicial
    (by decide) (by decide) (by decide) (by decide) (by decide)

/-- C9: from every state, after `detenerAnuncio` the emitter is not
advertising; the call adds `Advertising.stop` to the calls of the stack when
advertising was running and adds no call when it was not, and in that case it
leaves the whole state as it was. -/
theorem detenerAnuncio_deja_parada (e : EmisoraBLE) (g : Globales) :
    e.estaAnunciando (e.detenerAnuncio g) = false ∧
    (e.detenerAnuncio g).bluefruit.llamadas =
      g.bluefruit.llamadas ++ (if e.estaAnunciando g then [Llamada.advertisingStop] else []) ∧
    (Llamada.advertisingStop ∈
        (if e.estaAnunciando g then [Llamada.advertisingStop] else []) ↔
      e.estaAnunciando g = true) ∧
    (e.estaAnunciando g = false → e.detenerAnuncio g = g) := by
  refine ⟨?_, detenerAnuncio_llamadas e g, ?_, ?_⟩
  · unfold EmisoraBLE.detenerAnuncio EmisoraBLE.estaAnunciando
    by_cases h : g.bluefruit.anunciando = true
    · simp [h, Globales.llamar, Bluefruit.llamar]
    · simp [h]
  · by_cases h : e.estaAnunciando g = true <;> simp [h]
  · intro h
    simp [EmisoraBLE.detenerAnuncio, h]

/-- C10: from every state and for every argument, the emitter is advertising
right after `emitirAnuncioIBeacon` and right after `emitirAnuncioIBeaconLibre`:
the last call each issues to the stack is `Advertising.start(0)`. -/
theorem emitir_deja_anunciando (e : EmisoraBLE) (beaconUUID : List Nat)
    (major minor : Int) (rssi : Nat) (carga : List Nat) (tamanyoCarga : Nat)
    (g : Globales) :
    e.estaAnunciando (e.emitirAnuncioIBeacon beaconUUID major minor rssi g) = true ∧
    (e.emitirAnuncioIBeacon beaconUUID major minor rssi g).bluefruit.llamadas.getLast?
      = some (Llamada.advertisingStart 0) ∧
    e.estaAnunciando (e.emitirAnuncioIBeaconLibre carga tamanyoCarga g) = true ∧
    (e.emitirAnuncioIBeaconLibre carga tamanyoCarga g).bluefruit.llamadas.getLast?
      = some (Llamada.advertisingStart 0) := by
  refine ⟨?_, ?_, ?_, ?_⟩
  · simp [EmisoraBLE.emitirAnuncioIBeacon, EmisoraBLE.estaAnunciando, Globales.llamar,
      Bluefruit.llamar]
  · rw [emitirAnuncioIBeacon_llamadas]
    simp
  · simp [EmisoraBLE.emitirAnuncioIBeaconLibre, EmisoraBLE.estaAnunciando, Globales.llamar,
      Globales.escribir, Bluefruit.llamar]
  · rw [emitirAnuncioIBeaconLibre_llamadas]
    simp

/-- The radio of a call sequence does tell the sequences the emitter must not
produce: a configuration call after a start is out of order, and two starts
without a stop between them leave two advertisements active. -/
theorem radioTras_distingue :
    (radioTras [.advertisingStart 0, .setName []]).enRegla = false ∧
    (radioTras [.advertisingSetBeacon ⟨[], 0, 0, 0, 0⟩, .advertisingStart 0,
      .advertisingStart 0]).activos = [.beacon, .beacon] ∧
    (radioTras [.advertisingSetBeacon ⟨[], 0, 0, 0, 0⟩, .advertisingStart 0,
      .advertisingStop, .advertisingClearData, .advertisingAddData 255 [], .advertisingStart 0]
      ).activos = [.cargaLibre] := by
  decide

/-- C11: in every state reached from start-up through `encenderEmisora`,
`detenerAnuncio`, `emitirAnuncioIBeacon` and `emitirAnuncioIBeaconLibre`, at
most one advertisement is active and no advertising-configuration call has
reached the stack while advertising was running; and each of the two start
operations invoked there while advertising is running issues
`Advertising.stop` before any other call. -/
theorem exclusion_mutua_de_anuncios (e : EmisoraBLE) (ops : List Operacion) :
    (radioTras (e.ejecutarTodas ops Globales.inicial).bluefruit.llamadas).activos.length ≤ 1 ∧
    (radioTras (e.ejecutarTodas ops Globales.inicial).bluefruit.llamadas).enRegla = true ∧
    (radioTras (e.ejecutarTodas ops Globales.inicial).bluefruit.llamadas).anunciando =
      e.estaAnunciando (e.ejecutarTodas ops Globales.inicial) ∧
    (∀ (beaconUUID : List Nat) (major minor : Int) (rssi : Nat),
      e.estaAnunciando (e.ejecutarTodas ops Globales.inicial) = true →
      ∃ resto : List Llamada,
        (e.emitirAnuncioIBeacon beaconUUID major minor rssi
          (e.ejecutarTodas ops Globales.inicial)).bluefruit.llamadas =
        (e.ejecutarTodas ops Globales.inicial).bluefruit.llamadas
          ++ Llamada.advertisingStop :: resto ∧
        Llamada.advertisingStop ∉ resto) ∧
    (∀ (carga : List Nat) (tamanyoCarga : Nat),
      e.estaAnunciando (e.ejecutarTodas ops Globales.inicial) = true →
      ∃ resto : List Llamada,
        (e.emitirAnuncioIBeaconLibre carga tamanyoCarga
          (e.ejecutarTodas ops Globales.inicial)).bluefruit.llamadas =
        (e.ejecutarTodas ops Globales.inicial).bluefruit.llamadas
          ++ Llamada.advertisingStop :: resto ∧
        Llamada.advertisingStop ∉ resto) := by
  obtain ⟨h1, h2, h3, _⟩ := disciplinada_ejecutarTodas e ops Globales.inicial
    disciplinada_inicial
  refine ⟨h3, h2, h1, ?_, ?_⟩
  · intro beaconUUID major minor rssi h
    refine ⟨[.setTxPower e.txPower, .setName e.nombreEmisora, .scanResponseAddName,
      .advertisingSetBeacon
        { uuid128 := beaconUUID, major := major, minor := minor, rssi := rssi,
          manufacturer := e.fabricanteID },
      .advertisingRestartOnDisconnect true, .advertisingSetInterval 100 100,
      .advertisingStart 0], ?_, ?_⟩
    · rw [emitirAnuncioIBeacon_llamadas, h]
      simp only [if_true, List.append_assoc, List.singleton_append]
    · simp
  · intro carga tamanyoCarga h
    refine ⟨[.advertisingClearData, .scanResponseClearData, .setName e.nombreEmisora,
      .scanResponseAddName,
      .advertisingAddFlags BLE_GAP_ADV_FLAGS_LE_ONLY_GENERAL_DISC_MODE,
      .advertisingAddData BLE_GAP_AD_TYPE_MANUFACTURER_SPECIFIC_DATA
        ((restoPrefijoYCarga carga tamanyoCarga).take (4 + 21)),
      .advertisingRestartOnDisconnect true, .advertisingSetInterval 100 100,
      .advertisingSetFastTimeout 1, .advertisingStart 0], ?_, ?_⟩
    · rw [emitirAnuncioIBeaconLibre_llamadas, h]
      simp only [if_true, List.append_assoc, List.singleton_append]
    · simp

/-! ### Lemmas on `double` arithmetic -/

theorem Doble.valor_of_exponente_nonneg (x : Doble) (he : 0 ≤ x.exponente) :
    x.valor = ((x.mantisa * 2 ^ x.exponente.toNat : Int) : ℚ) := by
  unfold Doble.valor
  obtain ⟨n, hn⟩ := Int.eq_ofNat_of_zero_le he
  rw [hn, zpow_natCast]
  simp

theorem Doble.valor_of_exponente_neg (x : Doble) (he : ¬ 0 ≤ x.exponente) :
    x.valor = (x.mantisa : ℚ) / ((2 ^ (-x.exponente).toNat : Nat) : ℚ) := by
  unfold Doble.valor
  obtain ⟨n, hn⟩ := Int.exists_eq_neg_ofNat (Int.le_of_lt (Int.not_le.mp he))
  rw [hn, zpow_neg, zpow_natCast]
  simp [div_eq_mul_inv]

/-- The integer part of a non-negative `double` is the floor of its value. -/
theorem Doble.truncar_eq_floor (x : Doble) (hx : 0 ≤ x.valor) : x.truncar = ⌊x.valor⌋ := by
  unfold Doble.truncar
  by_cases he : 0 ≤ x.exponente
  · rw [if_pos he, Doble.valor_of_exponente_nonneg x he, Int.floor_intCast]
  · rw [if_neg he, Doble.valor_of_exponente_neg x he, Rat.floor_intCast_div_natCast]
    have hpos : (0 : ℚ) < ((2 ^ (-x.exponente).toNat : Nat) : ℚ) := by positivity
    have hm : 0 ≤ x.mantisa := by
      rw [Doble.valor_of_exponente_neg x he] at hx
      have := (div_nonneg_iff.mp hx)
      rcases this with ⟨h1, _⟩ | ⟨_, h2⟩
      · exact_mod_cast h1
      · exact absurd hpos (not_lt.mpr h2)
    rw [Int.tdiv_eq_ediv hm (by positivity)]
    push_cast
    rfl

/-- The integer part of a non-positive `double` is the ceiling of its value. -/
theorem Doble.truncar_eq_ceil (x : Doble) (hx : x.valor ≤ 0) : x.truncar = ⌈x.valor⌉ := by
  unfold Doble.truncar
  by_cases he : 0 ≤ x.exponente
  · rw [if_pos he, Doble.valor_of_exponente_nonneg x he, Int.ceil_intCast]
  · rw [if_neg he, Doble.valor_of_exponente_neg x he]
    have hpos : (0 : ℚ) < ((2 ^ (-x.exponente).toNat : Nat) : ℚ) := by positivity
    have hm : x.mantisa ≤ 0 := by
      rw [Doble.valor_of_exponente_neg x he] at hx
      have := (div_nonpos_iff.mp hx)
      rcases this with ⟨_, h2⟩ | ⟨h1, _⟩
      · exact absurd hpos (not_lt.mpr h2)
      · exact_mod_cast h1
    have hneg : x.mantisa = -(-x.mantisa) := by omega
    rw [hneg, Int.neg_tdiv, Int.tdiv_eq_ediv (by omega) (by positivity)]
    have hf := Rat.floor_intCast_div_natCast (-x.mantisa) (2 ^ (-x.exponente).toNat)
    push_cast at hf ⊢
    rw [← hf, ← Int.ceil_neg]
    congr 1
    ring

/-- The rounded quotient is within half a unit of the exact one. -/
theorem redondearAPar_cerca (n k : Nat) :
    2 * |((redondearAPar n k * 2 ^ k : Nat) : Int) - (n : Int)| ≤ ((2 ^ k : Nat) : Int) := by
  unfold redondearAPar
  have hP : 0 < 2 ^ k := Nat.two_pow_pos k
  generalize 2 ^ k = P at hP ⊢
  have hdm : P * (n / P) + n % P = n := Nat.div_add_mod n P
  have hr : n % P < P := Nat.mod_lt n hP
  generalize n / P = q at hdm ⊢
  generalize n % P = r at hdm hr ⊢
  have hdm' : (P : Int) * (q : Int) + (r : Int) = (n : Int) := by exact_mod_cast hdm
  have hr0 : (0 : Int) ≤ (r : Int) := Int.ofNat_nonneg _
  simp only []
  split
  · rename_i h1
    have h1' : 2 * (r : Int) < (P : Int) := by exact_mod_cast h1
    rw [← abs_two, ← abs_mul, abs_le]
    constructor <;> push_cast <;> nlinarith
  · split
    · rename_i h1 h2
      have h2' : (P : Int) < 2 * (r : Int) := by exact_mod_cast h2
      have hr' : (r : Int) < (P : Int) := by exact_mod_cast hr
      rw [← abs_two, ← abs_mul, abs_le]
      constructor <;> push_cast <;> nlinarith
    · rename_i h1 h2
      have h3 : 2 * (r : Int) = (P : Int) := by
        have : 2 * r = P := by omega
        exact_mod_cast this
      split
      · rw [← abs_two, ← abs_mul, abs_le]
        constructor <;> push_cast <;> nlinarith
      · rw [← abs_two, ← abs_mul, abs_le]
        constructor <;> push_cast <;> nlinarith

theorem bitsDeSobra_le (n : Nat) : bitsDeSobra n ≤ 4 := by
  unfold bitsDeSobra
  split_ifs <;> omega

/-- A product by ten whose mantissa has no bit too many is exact. -/
theorem Doble.porDiez_exacto (x : Doble) (h : (10 * x.mantisa).natAbs < 2 ^ 53) :
    x.porDiez.valor = x.valor * 10 := by
  have hk : bitsDeSobra (10 * x.mantisa).natAbs = 0 := by
    unfold bitsDeSobra
    rw [if_pos h]
  have hred : redondearAPar (10 * x.mantisa).natAbs 0 = (10 * x.mantisa).natAbs := by
    simp [redondearAPar, Nat.mod_one]
  have hm : x.mantisa.sign * ((10 * x.mantisa).natAbs : Int) = 10 * x.mantisa := by
    have h1 := Int.sign_mul_abs x.mantisa
    rw [Int.natAbs_mul, Int.natCast_mul, Int.natCast_natAbs, Int.natCast_natAbs]
    have h10 : abs (10 : Int) = 10 := by decide
    rw [h10]
    linear_combination 10 * h1
  simp only [Doble.porDiez, Doble.valor, hk, hred, hm]
  push_cast
  simp
  ring

/-- The product by ten is the exact product rounded to the nearest: it is
within half a unit of the last place kept. -/
theorem Doble.porDiez_cerca (x : Doble) :
    2 * |x.porDiez.valor - x.valor * 10| ≤ (2 : ℚ) ^ x.porDiez.exponente := by
  have hm : x.mantisa.sign * ((10 * x.mantisa).natAbs : Int) = 10 * x.mantisa := by
    have h1 := Int.sign_mul_abs x.mantisa
    rw [Int.natAbs_mul, Int.natCast_mul, Int.natCast_natAbs, Int.natCast_natAbs]
    have h10 : abs (10 : Int) = 10 := by decide
    rw [h10]
    linear_combination 10 * h1
  have hc := redondearAPar_cerca (10 * x.mantisa).natAbs (bitsDeSobra (10 * x.mantisa).natAbs)
  simp only [Doble.porDiez, Doble.valor]
  generalize (10 * x.mantisa).natAbs = n at hm hc ⊢
  generalize bitsDeSobra n = k at hc ⊢
  generalize redondearAPar n k = R at hc ⊢
  have hmq : (x.mantisa.sign : ℚ) * (n : ℚ) = 10 * (x.mantisa : ℚ) := by exact_mod_cast hm
  have hpos : (0 : ℚ) < (2 : ℚ) ^ x.exponente := by positivity
  have hval : ((x.mantisa.sign * (R : Int) : Int) : ℚ) * (2 : ℚ) ^ (x.exponente + (k : Int))
        - (x.mantisa : ℚ) * (2 : ℚ) ^ x.exponente * 10 =
      (x.mantisa.sign : ℚ) * ((R : ℚ) * (2 : ℚ) ^ k - (n : ℚ)) * (2 : ℚ) ^ x.exponente := by
    rw [zpow_add₀ (by norm_num : (2 : ℚ) ≠ 0), zpow_natCast]
    push_cast
    linear_combination ((2 : ℚ) ^ x.exponente) * hmq
  have hcq : 2 * |(R : ℚ) * (2 : ℚ) ^ k - (n : ℚ)| ≤ (2 : ℚ) ^ k := by
    have := hc
    have h2 : ((2 * |((R * 2 ^ k : Nat) : Int) - (n : Int)| : Int) : ℚ) ≤ (((2 ^ k : Nat) : Int) : ℚ) :=
      by exact_mod_cast this
    push_cast at h2
    exact h2
  have hsign : |(x.mantisa.sign : ℚ)| ≤ 1 := by
    rcases lt_trichotomy x.mantisa 0 with h | h | h
    · rw [Int.sign_eq_neg_one_of_neg h]
      norm_num
    · rw [h]
      norm_num
    · rw [Int.sign_eq_one_of_pos h]
      norm_num
  rw [hval, abs_mul, abs_mul, abs_of_pos hpos, zpow_add₀ (by norm_num : (2 : ℚ) ≠ 0),
    zpow_natCast]
  have habs : 0 ≤ |(R : ℚ) * (2 : ℚ) ^ k - (n : ℚ)| := abs_nonneg _
  have h3 : |(x.mantisa.sign : ℚ)| * |(R : ℚ) * (2 : ℚ) ^ k - (n : ℚ)|
      ≤ |(R : ℚ) * (2 : ℚ) ^ k - (n : ℚ)| := by
    calc |(x.mantisa.sign : ℚ)| * |(R : ℚ) * (2 : ℚ) ^ k - (n : ℚ)|
        ≤ 1 * |(R : ℚ) * (2 : ℚ) ^ k - (n : ℚ)| := mul_le_mul_of_nonneg_right hsign habs
      _ = |(R : ℚ) * (2 : ℚ) ^ k - (n : ℚ)| := one_mul _
  calc 2 * (|(x.mantisa.sign : ℚ)| * |(R : ℚ) * (2 : ℚ) ^ k - (n : ℚ)| * (2 : ℚ) ^ x.exponente)
      = (2 * (|(x.mantisa.sign : ℚ)| * |(R : ℚ) * (2 : ℚ) ^ k - (n : ℚ)|))
          * (2 : ℚ) ^ x.exponente := by ring
    _ ≤ (2 : ℚ) ^ k * (2 : ℚ) ^ x.exponente :=
        mul_le_mul_of_nonneg_right (by linarith) (le_of_lt hpos)
    _ = (2 : ℚ) ^ x.exponente * (2 : ℚ) ^ k := mul_comm _ _

theorem redondearAPar_le (n k : Nat) : redondearAPar n k ≤ n / 2 ^ k + 1 := by
  unfold redondearAPar
  simp only []
  split_ifs <;> omega

/-- The product by ten of a `double` is a `double`: its mantissa has at most
53 bits (or is `2 ^ 53` itself, which one more step of the exponent holds). -/
theorem Doble.porDiez_mantisa (x : Doble) (hx : x.mantisa.natAbs < 2 ^ 53) :
    x.porDiez.mantisa.natAbs ≤ 2 ^ 53 := by
  have hn : (10 * x.mantisa).natAbs = 10 * x.mantisa.natAbs := by
    rw [Int.natAbs_mul]
    rfl
  simp only [Doble.porDiez, Int.natAbs_mul, Int.natAbs_ofNat]
  have hs : x.mantisa.sign.natAbs ≤ 1 := by
    rcases lt_trichotomy x.mantisa 0 with h | h | h
    · rw [Int.sign_eq_neg_one_of_neg h]
      decide
    · rw [h]
      decide
    · rw [Int.sign_eq_one_of_pos h]
      decide
  have hR := redondearAPar_le (Int.natAbs 10 * x.mantisa.natAbs)
    (bitsDeSobra (Int.natAbs 10 * x.mantisa.natAbs))
  have h10 : Int.natAbs 10 = 10 := rfl
  rw [h10] at hR ⊢
  generalize x.mantisa.natAbs = a at hx hR ⊢
  have hq : 10 * a / 2 ^ bitsDeSobra (10 * a) + 1 ≤ 2 ^ 53 := by
    unfold bitsDeSobra
    split_ifs <;> omega
  calc x.mantisa.sign.natAbs * redondearAPar (10 * a) (bitsDeSobra (10 * a))
      ≤ 1 * redondearAPar (10 * a) (bitsDeSobra (10 * a)) := Nat.mul_le_mul_right _ hs
    _ = redondearAPar (10 * a) (bitsDeSobra (10 * a)) := Nat.one_mul _
    _ ≤ 2 ^ 53 := le_trans hR hq

/-! ### Lemmas on the publisher -/

theorem beaconsSetBeacon_detenerAnuncio (e : EmisoraBLE) (g : Globales) :
    beaconsSetBeacon (e.detenerAnuncio g).bluefruit.llamadas
      = beaconsSetBeacon g.bluefruit.llamadas := by
  rw [detenerAnuncio_llamadas, beaconsSetBeacon_append]
  by_cases h : e.estaAnunciando g = true <;> simp [h, beaconsSetBeacon]

/-- The beacon object that `publicarCO2` hands to `setBeacon`. -/
theorem publicarCO2_beacons (p : Publicador) (valorCO2 : Doble) (contador : Nat)
    (tiempoEspera : Int) (pl : Placa) :
    beaconsSetBeacon
        (p.publicarCO2 valorCO2 contador tiempoEspera pl).globales.bluefruit.llamadas =
      beaconsSetBeacon pl.globales.bluefruit.llamadas
        ++ [{ uuid128 := p.beaconUUID,
              major := aInt16 (aUint16 valorCO2.porDiez.truncar),
              minor := aInt16 valorCO2.truncar,
              rssi := aUint8 p.RSSI,
              manufacturer := p.laEmisora.fabricanteID }] := by
  simp only [Publicador.publicarCO2, esperar, delay]
  rw [beaconsSetBeacon_detenerAnuncio, emitirAnuncioIBeacon_beacons]

/-- The beacon object that `publicarTemperatura` hands to `setBeacon`. -/
theorem publicarTemperatura_beacons (p : Publicador) (valorTemperatura : Int)
    (contador : Nat) (tiempoEspera : Int) (pl : Placa) :
    beaconsSetBeacon
        (p.publicarTemperatura valorTemperatura contador tiempoEspera
          pl).globales.bluefruit.llamadas =
      beaconsSetBeacon pl.globales.bluefruit.llamadas
        ++ [{ uuid128 := p.beaconUUID,
              major := aInt16 (aUint16 (((MedicionesID.TEMPERATURA <<< 8) + contador : Nat) : Int)),
              minor := valorTemperatura,
              rssi := aUint8 p.RSSI,
              manufacturer := p.laEmisora.fabricanteID }] := by
  simp only [Publicador.publicarTemperatura, esperar, delay]
  rw [beaconsSetBeacon_detenerAnuncio, emitirAnuncioIBeacon_beacons]

theorem aInt16_aUint16_emod (v : Int) (h0 : 0 ≤ v) (h1 : v < 65536) :
    aInt16 (aUint16 v) % 65536 = v := by
  unfold aInt16 aUint16
  split <;> omega

theorem aInt16_aUint16_of_lt (v : Int) (h0 : 0 ≤ v) (h1 : v < 32768) :
    aInt16 (aUint16 v) = v := by
  unfold aInt16 aUint16
  split <;> omega

theorem aInt16_of_rango (v : Int) (h0 : -32768 ≤ v) (h1 : v < 32768) : aInt16 v = v := by
  unfold aInt16
  split <;> omega

set_option maxRecDepth 100000 in
theorem desplazar_o_contador :
    ∀ contador : Nat, contador < 256 →
      MedicionesID.TEMPERATURA <<< 8 ||| contador = 12 * 256 + contador := by
  decide

/-- The calls of `publicarCO2(123.4, 7, 500)` at start-up hand the stack the
beacon with major 1234, minor 123 and measured power 203; the `double`
nearest to 123.4 is `8683503031523738 * 2 ^ (-46)`. -/
theorem publicarCO2_ejemplo :
    (beaconsSetBeacon (Publicador.nuevo.publicarCO2 ⟨8683503031523738, -46⟩ 7 500
      Placa.inicial).globales.bluefruit.llamadas).map (fun b => (b.major, b.minor, b.rssi))
      = [(1234, 123, 203)] := by
  decide

/-! ## Properties of the publisher -/

/-- C12, as stated, fails: for the CO2 value 0.375 (the `double` `3 * 2 ^ (-3)`)
ten times the value is 3.75, within `0 .. 65536`, computed without rounding,
and its nearest integer is 4, while `publicarCO2` starts the beacon with
major 3. -/
theorem publicarCO2_major_no_redondea :
    Doble.valor ⟨3, -3⟩ * 10 = 15 / 4 ∧
    (Doble.porDiez ⟨3, -3⟩).valor = 15 / 4 ∧
    (0 : ℚ) ≤ 15 / 4 ∧ (15 / 4 : ℚ) < 65536 ∧
    round (Doble.valor ⟨3, -3⟩ * 10) = 4 ∧
    (beaconsSetBeacon (Publicador.nuevo.publicarCO2 ⟨3, -3⟩ 7 500
      Placa.inicial).globales.bluefruit.llamadas).map (fun b => b.major) = [3] := by
  have hv : Doble.valor ⟨3, -3⟩ * 10 = 15 / 4 := by norm_num [Doble.valor]
  have hp : Doble.porDiez ⟨3, -3⟩ = ⟨30, -3⟩ := by decide
  refine ⟨hv, ?_, by norm_num, by norm_num, ?_, by decide⟩
  · rw [hp]
    norm_num [Doble.valor]
  · rw [hv, round_eq, Int.floor_eq_iff]
    norm_num

/-- C12, amended: for every CO2 value `v` (a `double`) whose product by ten,
as `double` arithmetic computes it (the exact product rounded to the nearest
`double`), lies in `0 .. 65536`, `publicarCO2` starts the beacon with major
equal to the integer part of that product, its floor: as the unsigned 16-bit
number the frame carries, and as the `int16_t` argument itself when it is
below 32768. -/
theorem publicarCO2_major_trunca (p : Publicador) (valorCO2 : Doble) (contador : Nat)
    (tiempoEspera : Int) (pl : Placa)
    (hdoble : valorCO2.mantisa.natAbs < 2 ^ 53)
    (hrango : 0 ≤ valorCO2.porDiez.valor ∧ valorCO2.porDiez.valor < 65536) :
    ∃ beacon : BLEBeacon,
      beaconsSetBeacon
          (p.publicarCO2 valorCO2 contador tiempoEspera pl).globales.bluefruit.llamadas =
        beaconsSetBeacon pl.globales.bluefruit.llamadas ++ [beacon] ∧
      beacon.major % 65536 = ⌊valorCO2.porDiez.valor⌋ ∧
      (⌊valorCO2.porDiez.valor⌋ < 32768 → beacon.major = ⌊valorCO2.porDiez.valor⌋) ∧
      2 * |valorCO2.porDiez.valor - valorCO2.valor * 10|
        ≤ (2 : ℚ) ^ valorCO2.porDiez.exponente ∧
      valorCO2.porDiez.mantisa.natAbs ≤ 2 ^ 53 := by
  have hT : valorCO2.porDiez.truncar = ⌊valorCO2.porDiez.valor⌋ :=
    Doble.truncar_eq_floor _ hrango.1
  have h0 : 0 ≤ ⌊valorCO2.porDiez.valor⌋ := Int.floor_nonneg.mpr hrango.1
  have h1 : ⌊valorCO2.porDiez.valor⌋ < 65536 := by
    rw [Int.floor_lt]
    exact_mod_cast hrango.2
  refine ⟨_, publicarCO2_beacons p valorCO2 contador tiempoEspera pl, ?_, ?_,
    Doble.porDiez_cerca valorCO2, Doble.porDiez_mantisa valorCO2 hdoble⟩
  · simp only [hT]
    exact aInt16_aUint16_emod _ h0 h1
  · intro h2
    simp only [hT]
    exact aInt16_aUint16_of_lt _ h0 h2

/-- C12, amended, at the CO2 value 123.4 (the `double`
`8683503031523738 * 2 ^ (-46)`), counter 7 and 500 ms at start-up; the
integer part of the product is 1234 (`publicarCO2_ejemplo`). -/
theorem publicarCO2_major_trunca_witness :
    ∃ beacon : BLEBeacon,
      beaconsSetBeacon
          (Publicador.nuevo.publicarCO2 ⟨8683503031523738, -46⟩ 7 500
            Placa.inicial).globales.bluefruit.llamadas =
        beaconsSetBeacon Placa.inicial.globales.bluefruit.llamadas ++ [beacon] ∧
      beacon.major % 65536 = ⌊(Doble.porDiez ⟨8683503031523738, -46⟩).valor⌋ ∧
      (⌊(Doble.porDiez ⟨8683503031523738, -46⟩).valor⌋ < 32768 →
        beacon.major = ⌊(Doble.porDiez ⟨8683503031523738, -46⟩).valor⌋) ∧
      2 * |(Doble.porDiez ⟨8683503031523738, -46⟩).valor
          - Doble.valor ⟨8683503031523738, -46⟩ * 10|
        ≤ (2 : ℚ) ^ (Doble.porDiez ⟨8683503031523738, -46⟩).exponente ∧
      (Doble.porDiez ⟨8683503031523738, -46⟩).mantisa.natAbs ≤ 2 ^ 53 :=
  publicarCO2_major_trunca Publicador.nuevo ⟨8683503031523738, -46⟩ 7 500 Placa.inicial
    (by decide)
    (by
      have hp : Doble.porDiez ⟨8683503031523738, -46⟩ = ⟨5427189394702336, -42⟩ := by decide
      rw [hp]
      norm_num [Doble.valor])

/-- C13: for every counter below 256 and every temperature value,
`publicarTemperatura` starts the beacon with major
`(TEMPERATURA << 8) | contador`, `TEMPERATURA` being 12: the sum the code
computes equals the bitwise or, stays below `2 ^ 15`, has high byte 12 and low
byte `contador`; and minor is the temperature value. -/
theorem publicarTemperatura_major (p : Publicador) (valorTemperatura : Int)
    (contador : Nat) (tiempoEspera : Int) (pl : Placa) (hcontador : contador < 256) :
    ∃ beacon : BLEBeacon,
      beaconsSetBeacon
          (p.publicarTemperatura valorTemperatura contador tiempoEspera
            pl).globales.bluefruit.llamadas =
        beaconsSetBeacon pl.globales.bluefruit.llamadas ++ [beacon] ∧
      beacon.major = ((MedicionesID.TEMPERATURA <<< 8 ||| contador : Nat) : Int) ∧
      MedicionesID.TEMPERATURA = 12 ∧
      (MedicionesID.TEMPERATURA <<< 8) + contador
        = MedicionesID.TEMPERATURA <<< 8 ||| contador ∧
      (MedicionesID.TEMPERATURA <<< 8) + contador < 32768 ∧
      0 ≤ beacon.major ∧ beacon.major < 32768 ∧
      beacon.major / 256 = 12 ∧ beacon.major % 256 = contador ∧
      bytes16 beacon.major = [12, contador] ∧
      beacon.minor = valorTemperatura := by
  have hor := desplazar_o_contador contador hcontador
  have hsum : (MedicionesID.TEMPERATURA <<< 8) + contador = 12 * 256 + contador := rfl
  have hmajor : aInt16 (aUint16 (((MedicionesID.TEMPERATURA <<< 8) + contador : Nat) : Int))
      = ((12 * 256 + contador : Nat) : Int) := by
    rw [hsum]
    exact aInt16_aUint16_of_lt _ (by omega) (by omega)
  refine ⟨_, publicarTemperatura_beacons p valorTemperatura contador tiempoEspera pl,
    ?_, rfl, ?_, ?_, ?_, ?_, ?_, ?_, ?_, rfl⟩
  · simp only [hmajor, hor]
  · rw [hor, hsum]
  · rw [hsum]
    omega
  · simp only [hmajor]
    omega
  · simp only [hmajor]
    omega
  · simp only [hmajor]
    omega
  · simp only [hmajor]
    omega
  · simp only [hmajor, bytes16]
    have h1 : (((12 * 256 + contador : Nat) : Int) % 65536).toNat = 12 * 256 + contador := by
      omega
    rw [h1]
    have h2 : (12 * 256 + contador) / 256 = 12 := by omega
    have h3 : (12 * 256 + contador) % 256 = contador := by omega
    rw [h2, h3]

/-- C13, at the temperature -5 with counter 255 and 500 ms at start-up. -/
theorem publicarTemperatura_major_witness :
    ∃ beacon : BLEBeacon,
      beaconsSetBeacon
          (Publicador.nuevo.publicarTemperatura (-5) 255 500
            Placa.inicial).globales.bluefruit.llamadas =
        beaconsSetBeacon Placa.inicial.globales.bluefruit.llamadas ++ [beacon] ∧
      beacon.major = ((MedicionesID.TEMPERATURA <<< 8 ||| 255 : Nat) : Int) ∧
      MedicionesID.TEMPERATURA = 12 ∧
      (MedicionesID.TEMPERATURA <<< 8) + 255 = MedicionesID.TEMPERATURA <<< 8 ||| 255 ∧
      (MedicionesID.TEMPERATURA <<< 8) + 255 < 32768 ∧
      0 ≤ beacon.major ∧ beacon.major < 32768 ∧
      beacon.major / 256 = 12 ∧ beacon.major % 256 = (255 : Nat) ∧
      bytes16 beacon.major = [12, 255] ∧
      beacon.minor = -5 :=
  publicarTemperatura_major Publicador.nuevo (-5) 255 500 Placa.inicial (by decide)

/-- C14: for every value, counter and duration `t`, and from every state,
`publicarCO2` and `publicarTemperatura` do exactly this: one
`emitirAnuncioIBeacon`, then one wait of `t` milliseconds, during which the
stack is in the state that call left, with advertising running, then
`detenerAnuncio`, which issues `Advertising.stop`; afterwards the emitter is
not advertising. -/
theorem publicar_emite_espera_detiene (p : Publicador) (valorCO2 : Doble)
    (valorTemperatura : Int) (contador : Nat) (tiempoEspera : Int) (pl : Placa) :
    (∃ (major minor : Int) (rssi : Nat),
      p.publicarCO2 valorCO2 contador tiempoEspera pl =
        { globales := p.laEmisora.detenerAnuncio
            (p.laEmisora.emitirAnuncioIBeacon p.beaconUUID major minor rssi pl.globales),
          esperas := pl.esperas ++ [(tiempoEspera,
            (p.laEmisora.emitirAnuncioIBeacon p.beaconUUID major minor rssi
              pl.globales).bluefruit)] } ∧
      (p.laEmisora.emitirAnuncioIBeacon p.beaconUUID major minor rssi
        pl.globales).bluefruit.anunciando = true ∧
      (p.publicarCO2 valorCO2 contador tiempoEspera pl).globales.bluefruit.llamadas =
        (p.laEmisora.emitirAnuncioIBeacon p.beaconUUID major minor rssi
          pl.globales).bluefruit.llamadas ++ [Llamada.advertisingStop]) ∧
    p.laEmisora.estaAnunciando
      (p.publicarCO2 valorCO2 contador tiempoEspera pl).globales = false ∧
    (∃ (major minor : Int) (rssi : Nat),
      p.publicarTemperatura valorTemperatura contador tiempoEspera pl =
        { globales := p.laEmisora.detenerAnuncio
            (p.laEmisora.emitirAnuncioIBeacon p.beaconUUID major minor rssi pl.globales),
          esperas := pl.esperas ++ [(tiempoEspera,
            (p.laEmisora.emitirAnuncioIBeacon p.beaconUUID major minor rssi
              pl.globales).bluefruit)] } ∧
      (p.laEmisora.emitirAnuncioIBeacon p.beaconUUID major minor rssi
        pl.globales).bluefruit.anunciando = true ∧
      (p.publicarTemperatura valorTemperatura contador tiempoEspera
          pl).globales.bluefruit.llamadas =
        (p.laEmisora.emitirAnuncioIBeacon p.beaconUUID major minor rssi
          pl.globales).bluefruit.llamadas ++ [Llamada.advertisingStop]) ∧
    p.laEmisora.estaAnunciando
      (p.publicarTemperatura valorTemperatura contador tiempoEspera pl).globales = false := by
  refine ⟨⟨aInt16 (aUint16 valorCO2.porDiez.truncar), aInt16 valorCO2.truncar,
      aUint8 p.RSSI, rfl, emitirAnuncioIBeacon_anunciando _ _ _ _ _ _, ?_⟩, ?_,
    ⟨aInt16 (aUint16 (((MedicionesID.TEMPERATURA <<< 8) + contador : Nat) : Int)),
      valorTemperatura, aUint8 p.RSSI, rfl, emitirAnuncioIBeacon_anunciando _ _ _ _ _ _, ?_⟩,
    ?_⟩
  · simp only [Publicador.publicarCO2, esperar, delay]
    rw [detenerAnuncio_llamadas]
    simp [EmisoraBLE.estaAnunciando, emitirAnuncioIBeacon_anunciando]
  · simp only [Publicador.publicarCO2, esperar, delay, EmisoraBLE.estaAnunciando]
    exact detenerAnuncio_anunciando _ _
  · simp only [Publicador.publicarTemperatura, esperar, delay]
    rw [detenerAnuncio_llamadas]
    simp [EmisoraBLE.estaAnunciando, emitirAnuncioIBeacon_anunciando]
  · simp only [Publicador.publicarTemperatura, esperar, delay, EmisoraBLE.estaAnunciando]
    exact detenerAnuncio_anunciando _ _

/-- C15: for every CO2 value `v` (a `double`) with `-32768 < v < 32768`,
`publicarCO2` starts the beacon with minor equal to `v` rounded toward zero:
its floor when `v` is not negative, its ceiling when `v` is not positive. -/
theorem publicarCO2_minor_trunca (p : Publicador) (valorCO2 : Doble) (contador : Nat)
    (tiempoEspera : Int) (pl : Placa)
    (hrango : -32768 < valorCO2.valor ∧ valorCO2.valor < 32768) :
    ∃ beacon : BLEBeacon,
      beaconsSetBeacon
          (p.publicarCO2 valorCO2 contador tiempoEspera pl).globales.bluefruit.llamadas =
        beaconsSetBeacon pl.globales.bluefruit.llamadas ++ [beacon] ∧
      beacon.minor = valorCO2.truncar ∧
      (0 ≤ valorCO2.valor → beacon.minor = ⌊valorCO2.valor⌋) ∧
      (valorCO2.valor ≤ 0 → beacon.minor = ⌈valorCO2.valor⌉) ∧
      -32768 < beacon.minor ∧ beacon.minor < 32768 := by
  have hT : -32768 < valorCO2.truncar ∧ valorCO2.truncar < 32768 := by
    by_cases h : 0 ≤ valorCO2.valor
    · rw [Doble.truncar_eq_floor _ h]
      have h0 : 0 ≤ ⌊valorCO2.valor⌋ := Int.floor_nonneg.mpr h
      have h1 : ⌊valorCO2.valor⌋ < 32768 := by
        rw [Int.floor_lt]
        exact_mod_cast hrango.2
      omega
    · have h' : valorCO2.valor ≤ 0 := le_of_lt (not_le.mp h)
      rw [Doble.truncar_eq_ceil _ h']
      have h0 : ⌈valorCO2.valor⌉ ≤ 0 := by
        rw [Int.ceil_le]
        exact_mod_cast h'
      have h1 : -32768 < ⌈valorCO2.valor⌉ := by
        rw [Int.lt_ceil]
        exact_mod_cast hrango.1
      omega
  have hminor : aInt16 valorCO2.truncar = valorCO2.truncar :=
    aInt16_of_rango _ (by omega) hT.2
  refine ⟨_, publicarCO2_beacons p valorCO2 contador tiempoEspera pl, hminor, ?_, ?_, ?_, ?_⟩
  · intro h
    simp only [hminor]
    exact Doble.truncar_eq_floor _ h
  · intro h
    simp only [hminor]
    exact Doble.truncar_eq_ceil _ h
  · simp only [hminor]
    exact hT.1
  · simp only [hminor]
    exact hT.2

/-- C15, at the CO2 value 123.4 (the `double` `8683503031523738 * 2 ^ (-46)`),
counter 7 and 500 ms at start-up; the minor is 123 (`publicarCO2_ejemplo`). -/
theorem publicarCO2_minor_trunca_witness :
    ∃ beacon : BLEBeacon,
      beaconsSetBeacon
          (Publicador.nuevo.publicarCO2 ⟨8683503031523738, -46⟩ 7 500
            Placa.inicial).globales.bluefruit.llamadas =
        beaconsSetBeacon Placa.inicial.globales.bluefruit.llamadas ++ [beacon] ∧
      beacon.minor = Doble.truncar ⟨8683503031523738, -46⟩ ∧
      (0 ≤ Doble.valor ⟨8683503031523738, -46⟩ →
        beacon.minor = ⌊Doble.valor ⟨8683503031523738, -46⟩⌋) ∧
      (Doble.valor ⟨8683503031523738, -46⟩ ≤ 0 →
        beacon.minor = ⌈Doble.valor ⟨8683503031523738, -46⟩⌉) ∧
      -32768 < beacon.minor ∧ beacon.minor < 32768 :=
  publicarCO2_minor_trunca Publicador.nuevo ⟨8683503031523738, -46⟩ 7 500 Placa.inicial
    (by norm_num [Doble.valor])

/-- C20: `publicarCO2` does not use its counter: for every value, duration,
state and every two counters the two calls leave the same state, with the same
calls to the stack (same UUID, major, minor, measured power) and the same
wait. -/
theorem publicarCO2_ignora_contador (p : Publicador) (valorCO2 : Doble)
    (contador1 contador2 : Nat) (tiempoEspera : Int) (pl : Placa) :
    p.publicarCO2 valorCO2 contador1 tiempoEspera pl =
      p.publicarCO2 valorCO2 contador2 tiempoEspera pl ∧
    (p.publicarCO2 valorCO2 contador1 tiempoEspera pl).globales.bluefruit.llamadas =
      (p.publicarCO2 valorCO2 contador2 tiempoEspera pl).globales.bluefruit.llamadas ∧
    (p.publicarCO2 valorCO2 contador1 tiempoEspera pl).esperas =
      (p.publicarCO2 valorCO2 contador2 tiempoEspera pl).esperas :=
  ⟨rfl, rfl, rfl⟩

/-! ### Lemmas on services and characteristics -/

theorem activarCaracteristicas_llamadas :
    ∀ (cs : List Caracteristica) (errores : List Nat) (g : Globales),
      (activarCaracteristicas cs errores g).bluefruit.llamadas =
        g.bluefruit.llamadas
          ++ cs.map (fun c => Llamada.characteristicBegin c.uuidCaracteristica) := by
  intro cs
  induction cs with
  | nil => intro errores g; simp [activarCaracteristicas]
  | cons c resto ih =>
    intro errores g
    simp only [activarCaracteristicas]
    rw [ih]
    simp [Caracteristica.activar, Globales.llamar, Globales.escribir, Bluefruit.llamar]

theorem activarServicio_llamadas (s : ServicioEnEmisora) (error : Nat) (errores : List Nat)
    (g : Globales) :
    (s.activarServicio error errores g).bluefruit.llamadas =
      g.bluefruit.llamadas ++ [Llamada.serviceBegin s.uuidServicio]
        ++ s.lasCaracteristicas.map (fun c => Llamada.characteristicBegin c.uuidCaracteristica) := by
  simp only [ServicioEnEmisora.activarServicio]
  rw [activarCaracteristicas_llamadas]
  simp [Globales.llamar, Globales.escribir, Bluefruit.llamar]

theorem foldl_anyadirCaracteristica :
    ∀ (cs : List Caracteristica) (s : ServicioEnEmisora),
      cs.foldl ServicioEnEmisora.anyadirCaracteristica s =
        { uuidServicio := s.uuidServicio, lasCaracteristicas := s.lasCaracteristicas ++ cs } := by
  intro cs
  induction cs with
  | nil => intro s; simp
  | cons c resto ih =>
    intro s
    simp only [List.foldl_cons]
    rw [ih]
    simp [ServicioEnEmisora.anyadirCaracteristica]

theorem anyadirServicioConSusCaracteristicas_eq (e : EmisoraBLE) :
    ∀ (cs : List Caracteristica) (servicio : ServicioEnEmisora) (r : Bool) (g : Globales),
      e.anyadirServicioConSusCaracteristicas servicio cs r g =
        e.anyadirUnaAUnaYLuegoServicio servicio cs r g := by
  intro cs
  induction cs with
  | nil =>
    intro servicio r g
    simp [EmisoraBLE.anyadirServicioConSusCaracteristicas,
      EmisoraBLE.anyadirUnaAUnaYLuegoServicio]
  | cons c resto ih =>
    intro servicio r g
    simp only [EmisoraBLE.anyadirServicioConSusCaracteristicas]
    rw [ih]
    simp [EmisoraBLE.anyadirUnaAUnaYLuegoServicio]

theorem anyadirServicio_llamadas (e : EmisoraBLE) (servicio : ServicioEnEmisora) (r : Bool)
    (g : Globales) :
    (e.anyadirServicio servicio r g).2.bluefruit.llamadas =
      g.bluefruit.llamadas ++ [Llamada.advertisingAddService servicio.uuidServicio] := by
  cases r <;>
    simp [EmisoraBLE.anyadirServicio, Globales.llamar, Globales.escribir, Bluefruit.llamar]

/-! ## Properties of services and of powering on -/

/-- C16: for a service whose vector holds `c1 .. cn` (what `n` calls of
`anyadirCaracteristica` leave in an empty vector, in that order, repeated
entries kept), `activarServicio` issues exactly these stack calls: the
registration of the service, then the registration of `c1`, ..., `cn` in that
order, one per entry; and it issues the same calls whatever the stack answers
to any of them. -/
theorem activarServicio_en_orden (s : ServicioEnEmisora) (cs : List Caracteristica)
    (error : Nat) (errores : List Nat) (g : Globales) :
    (cs.foldl ServicioEnEmisora.anyadirCaracteristica s).lasCaracteristicas
      = s.lasCaracteristicas ++ cs ∧
    (s.activarServicio error errores g).bluefruit.llamadas =
      g.bluefruit.llamadas ++ [Llamada.serviceBegin s.uuidServicio]
        ++ s.lasCaracteristicas.map (fun c => Llamada.characteristicBegin c.uuidCaracteristica) ∧
    (∀ (otroError : Nat) (otrosErrores : List Nat),
      (s.activarServicio otroError otrosErrores g).bluefruit.llamadas =
        (s.activarServicio error errores g).bluefruit.llamadas) := by
  refine ⟨?_, activarServicio_llamadas s error errores g, ?_⟩
  · rw [foldl_anyadirCaracteristica]
  · intro otroError otrosErrores
    rw [activarServicio_llamadas, activarServicio_llamadas]

/-- C17: for every service and every list of characteristics `c1 .. cn`, the
variadic `anyadirServicioConSusCaracteristicas` does what
`anyadirCaracteristica(c1)`, ..., `anyadirCaracteristica(cn)` and then
`anyadirServicio` do: the vector of the service grows by `c1 .. cn` in that
order and the result is the boolean `r` that `addService` answered; and
`anyadirServicioConSusCaracteristicasYActivar` returns that boolean and
registers the service and its characteristics afterwards, also when it is
false. -/
theorem anyadirServicioConSusCaracteristicas_equivale (e : EmisoraBLE)
    (servicio : ServicioEnEmisora) (cs : List Caracteristica) (r : Bool) (error : Nat)
    (errores : List Nat) (g : Globales) :
    e.anyadirServicioConSusCaracteristicas servicio cs r g =
      e.anyadirUnaAUnaYLuegoServicio servicio cs r g ∧
    (e.anyadirServicioConSusCaracteristicas servicio cs r g).2.1.lasCaracteristicas =
      servicio.lasCaracteristicas ++ cs ∧
    (e.anyadirServicioConSusCaracteristicas servicio cs r g).2.1.uuidServicio =
      servicio.uuidServicio ∧
    (e.anyadirServicioConSusCaracteristicas servicio cs r g).1 = r ∧
    (e.anyadirServicioConSusCaracteristicas servicio cs r g).2.2.bluefruit.llamadas =
      g.bluefruit.llamadas ++ [Llamada.advertisingAddService servicio.uuidServicio] ∧
    (e.anyadirServicioConSusCaracteristicasYActivar servicio cs r error errores g).1 = r ∧
    (e.anyadirServicioConSusCaracteristicasYActivar servicio cs r error errores
        g).2.2.bluefruit.llamadas =
      g.bluefruit.llamadas ++ [Llamada.advertisingAddService servicio.uuidServicio]
        ++ [Llamada.serviceBegin servicio.uuidServicio]
        ++ (servicio.lasCaracteristicas ++ cs).map
            (fun c => Llamada.characteristicBegin c.uuidCaracteristica) := by
  have heq := anyadirServicioConSusCaracteristicas_eq e cs servicio r g
  have hfold := foldl_anyadirCaracteristica cs servicio
  refine ⟨heq, ?_, ?_, ?_, ?_, ?_, ?_⟩
  · rw [heq]
    simp [EmisoraBLE.anyadirUnaAUnaYLuegoServicio, hfold]
  · rw [heq]
    simp [EmisoraBLE.anyadirUnaAUnaYLuegoServicio, hfold]
  · rw [heq]
    simp [EmisoraBLE.anyadirUnaAUnaYLuegoServicio, EmisoraBLE.anyadirServicio]
  · rw [heq]
    simp only [EmisoraBLE.anyadirUnaAUnaYLuegoServicio]
    rw [anyadirServicio_llamadas, hfold]
  · simp only [EmisoraBLE.anyadirServicioConSusCaracteristicasYActivar]
    rw [heq]
    simp [EmisoraBLE.anyadirUnaAUnaYLuegoServicio, EmisoraBLE.anyadirServicio]
  · simp only [EmisoraBLE.anyadirServicioConSusCaracteristicasYActivar]
    rw [activarServicio_llamadas, heq]
    simp only [EmisoraBLE.anyadirUnaAUnaYLuegoServicio]
    rw [anyadirServicio_llamadas, hfold]

/-- C18: from every state, `encenderEmisora` leaves the radio powered and not
advertising: it issues `begin` and then `Advertising.stop` if advertising was
running; a second call leaves the radio in the same state as the first and
only issues `begin` once more. -/
theorem encenderEmisora_deja_encendida_y_parada (e : EmisoraBLE) (g : Globales) :
    (e.encenderEmisora g).estadoRadio = (true, false) ∧
    e.estaAnunciando (e.encenderEmisora g) = false ∧
    (e.encenderEmisora g).bluefruit.llamadas =
      g.bluefruit.llamadas ++ [Llamada.begin]
        ++ (if e.estaAnunciando g then [Llamada.advertisingStop] else []) ∧
    (e.encenderEmisora (e.encenderEmisora g)).estadoRadio = (e.encenderEmisora g).estadoRadio ∧
    (e.encenderEmisora (e.encenderEmisora g)).bluefruit.llamadas =
      (e.encenderEmisora g).bluefruit.llamadas ++ [Llamada.begin] ∧
    (e.encenderEmisora (e.encenderEmisora g)).elPuerto = (e.encenderEmisora g).elPuerto := by
  have hstate : ∀ g' : Globales, (e.encenderEmisora g').estadoRadio = (true, false) := by
    intro g'
    unfold EmisoraBLE.encenderEmisora EmisoraBLE.detenerAnuncio EmisoraBLE.estaAnunciando
      Globales.estadoRadio
    by_cases h : g'.bluefruit.anunciando = true
    · simp [h, Globales.llamar, Bluefruit.llamar]
    · simp [h, Globales.llamar, Bluefruit.llamar]
  have hpuerto : ∀ g' : Globales, (e.encenderEmisora g').elPuerto = g'.elPuerto := by
    intro g'
    unfold EmisoraBLE.encenderEmisora EmisoraBLE.detenerAnuncio EmisoraBLE.estaAnunciando
    by_cases h : g'.bluefruit.anunciando = true
    · simp [h, Globales.llamar, Bluefruit.llamar]
    · simp [h, Globales.llamar, Bluefruit.llamar]
  have hparada : e.estaAnunciando (e.encenderEmisora g) = false := by
    have := hstate g
    simp only [Globales.estadoRadio, Prod.mk.injEq] at this
    exact this.2
  refine ⟨hstate g, hparada, encenderEmisora_llamadas e g, ?_, ?_, hpuerto _⟩
  · rw [hstate, hstate]
  · rw [encenderEmisora_llamadas e (e.encenderEmisora g), hparada]
    simp

/-- Two names of the same length, at most the size of the array, that
`stringAUint8AlReves` turns into the same array are equal. -/
theorem stringAUint8AlReves_inyectiva (a b resto1 resto2 pUint : List Nat) (tamMax : Nat)
    (ha : ∀ c ∈ a, c ≠ 0) (hb : ∀ c ∈ b, c ≠ 0) (hbuf : pUint.length = tamMax)
    (hlen : a.length = b.length) (hmax : a.length ≤ tamMax)
    (huuid : stringAUint8AlReves (a ++ 0 :: resto1) pUint tamMax
      = stringAUint8AlReves (b ++ 0 :: resto2) pUint tamMax) :
    a = b := by
  apply List.ext_getElem?
  intro i
  by_cases hi : i < a.length
  · have h1 := stringAUint8AlReves_getElem? a resto1 pUint tamMax (tamMax - 1 - i) ha hbuf
    have h2 := stringAUint8AlReves_getElem? b resto2 pUint tamMax (tamMax - 1 - i) hb hbuf
    have hc1 : tamMax - min a.length tamMax ≤ tamMax - 1 - i ∧ tamMax - 1 - i < tamMax := by
      omega
    have hc2 : tamMax - min b.length tamMax ≤ tamMax - 1 - i ∧ tamMax - 1 - i < tamMax := by
      omega
    have hidx : tamMax - 1 - (tamMax - 1 - i) = i := by omega
    rw [if_pos hc1, hidx] at h1
    rw [if_pos hc2, hidx] at h2
    rw [← h1, ← h2, huuid]
  · rw [List.getElem?_eq_none (by omega), List.getElem?_eq_none (by omega)]

/-- C19: the derivation of the UUID from the name, in `ServicioEnEmisora` and
in `Caracteristica`, is not injective on names of at most 16 characters: the
empty name, "F" and "FE" are three different names that all derive the bytes
`'0123456789ABCDEF'`; two names of the same length, at most 16, derive equal
UUIDs only if they are equal. -/
theorem uuid_de_nombre_no_inyectiva :
    ((ServicioEnEmisora.nuevo [0]).uuidServicio = uuidInicial ∧
      (ServicioEnEmisora.nuevo [70, 0]).uuidServicio = uuidInicial ∧
      (ServicioEnEmisora.nuevo [70, 69, 0]).uuidServicio = uuidInicial) ∧
    ((Caracteristica.nueva [0]).uuidCaracteristica = uuidInicial ∧
      (Caracteristica.nueva [70, 0]).uuidCaracteristica = uuidInicial ∧
      (Caracteristica.nueva [70, 69, 0]).uuidCaracteristica = uuidInicial) ∧
    (([] : List Nat) ≠ [70] ∧ ([] : List Nat) ≠ [70, 69] ∧ ([70] : List Nat) ≠ [70, 69]) ∧
    (∀ a b resto1 resto2 : List Nat, (∀ c ∈ a, c ≠ 0) → (∀ c ∈ b, c ≠ 0) →
      a.length = b.length → a.length ≤ 16 →
      (ServicioEnEmisora.nuevo (a ++ 0 :: resto1)).uuidServicio
        = (ServicioEnEmisora.nuevo (b ++ 0 :: resto2)).uuidServicio →
      a = b) ∧
    (∀ a b resto1 resto2 : List Nat, (∀ c ∈ a, c ≠ 0) → (∀ c ∈ b, c ≠ 0) →
      a.length = b.length → a.length ≤ 16 →
      (Caracteristica.nueva (a ++ 0 :: resto1)).uuidCaracteristica
        = (Caracteristica.nueva (b ++ 0 :: resto2)).uuidCaracteristica →
      a = b) := by
  refine ⟨by decide, by decide, by decide, ?_, ?_⟩
  · intro a b resto1 resto2 ha hb hlen hmax huuid
    exact stringAUint8AlReves_inyectiva a b resto1 resto2 uuidInicial 16 ha hb rfl hlen hmax
      huuid
  · intro a b resto1 resto2 ha hb hlen hmax huuid
    exact stringAUint8AlReves_inyectiva a b resto1 resto2 uuidInicial 16 ha hb rfl hlen hmax
      huuid

/-- The last byte of the frame of a beacon object is its measured power. -/
theorem BLEBeacon.trama_getLast? (b : BLEBeacon) : b.trama.getLast? = some (b.rssi % 256) := by
  unfold BLEBeacon.trama
  rw [List.getLast?_append]
  rfl

/-- C21: in every call of `publicarCO2` and of `publicarTemperatura`, whatever
the value, the counter, the duration and the state, the measured power handed
to `emitirAnuncioIBeacon` is 203 (`0xCB`): the member `RSSI`, the `int` -53,
converted to the `uint8_t` parameter, which is -53 modulo 256; it is the
measured power of the beacon object given to the stack and the last byte of
its frame. -/
theorem publicar_rssi_203 (p : Publicador) (valorCO2 : Doble) (valorTemperatura : Int)
    (contador : Nat) (tiempoEspera : Int) (pl : Placa) (hRSSI : p.RSSI = -53) :
    aUint8 p.RSSI = 203 ∧ ((-53 : Int) % 256).toNat = 203 ∧ (203 : Nat) = 0xCB ∧
    (∃ major minor : Int,
      p.publicarCO2 valorCO2 contador tiempoEspera pl =
        { globales := p.laEmisora.detenerAnuncio
            (p.laEmisora.emitirAnuncioIBeacon p.beaconUUID major minor 203 pl.globales),
          esperas := pl.esperas ++ [(tiempoEspera,
            (p.laEmisora.emitirAnuncioIBeacon p.beaconUUID major minor 203
              pl.globales).bluefruit)] }) ∧
    (∃ beacon : BLEBeacon,
      beaconsSetBeacon
          (p.publicarCO2 valorCO2 contador tiempoEspera pl).globales.bluefruit.llamadas =
        beaconsSetBeacon pl.globales.bluefruit.llamadas ++ [beacon] ∧
      beacon.rssi = 203 ∧ beacon.trama.getLast? = some 203) ∧
    (∃ major minor : Int,
      p.publicarTemperatura valorTemperatura contador tiempoEspera pl =
        { globales := p.laEmisora.detenerAnuncio
            (p.laEmisora.emitirAnuncioIBeacon p.beaconUUID major minor 203 pl.globales),
          esperas := pl.esperas ++ [(tiempoEspera,
            (p.laEmisora.emitirAnuncioIBeacon p.beaconUUID major minor 203
              pl.globales).bluefruit)] }) ∧
    (∃ beacon : BLEBeacon,
      beaconsSetBeacon
          (p.publicarTemperatura valorTemperatura contador tiempoEspera
            pl).globales.bluefruit.llamadas =
        beaconsSetBeacon pl.globales.bluefruit.llamadas ++ [beacon] ∧
      beacon.rssi = 203 ∧ beacon.trama.getLast? = some 203) := by
  have h203 : aUint8 p.RSSI = 203 := by
    rw [hRSSI]
    decide
  refine ⟨h203, by decide, by decide, ?_, ?_, ?_, ?_⟩
  · refine ⟨aInt16 (aUint16 valorCO2.porDiez.truncar), aInt16 valorCO2.truncar, ?_⟩
    rw [← h203]
    rfl
  · refine ⟨_, publicarCO2_beacons p valorCO2 contador tiempoEspera pl, h203, ?_⟩
    rw [BLEBeacon.trama_getLast?]
    simp only [h203]
  · refine ⟨aInt16 (aUint16 (((MedicionesID.TEMPERATURA <<< 8) + contador : Nat) : Int)),
      valorTemperatura, ?_⟩
    rw [← h203]
    rfl
  · refine ⟨_, publicarTemperatura_beacons p valorTemperatura contador tiempoEspera pl,
      h203, ?_⟩
    rw [BLEBeacon.trama_getLast?]
    simp only [h203]

/-- C21, at the publisher the constructor builds, with the CO2 value 123.4,
the temperature -5, counter 7 and 500 ms at start-up. -/
theorem publicar_rssi_203_witness :
    aUint8 Publicador.nuevo.RSSI = 203 ∧ ((-53 : Int) % 256).toNat = 203 ∧
    (203 : Nat) = 0xCB ∧
    (∃ major minor : Int,
      Publicador.nuevo.publicarCO2 ⟨8683503031523738, -46⟩ 7 500 Placa.inicial =
        { globales := Publicador.nuevo.laEmisora.detenerAnuncio
            (Publicador.nuevo.laEmisora.emitirAnuncioIBeacon Publicador.nuevo.beaconUUID
              major minor 203 Placa.inicial.globales),
          esperas := Placa.inicial.esperas ++ [(500,
            (Publicador.nuevo.laEmisora.emitirAnuncioIBeacon Publicador.nuevo.beaconUUID
              major minor 203 Placa.inicial.globales).bluefruit)] }) ∧
    (∃ beacon : BLEBeacon,
      beaconsSetBeacon
          (Publicador.nuevo.publicarCO2 ⟨8683503031523738, -46⟩ 7 500
            Placa.inicial).globales.bluefruit.llamadas =
        beaconsSetBeacon Placa.inicial.globales.bluefruit.llamadas ++ [beacon] ∧
      beacon.rssi = 203 ∧ beacon.trama.getLast? = some 203) ∧
    (∃ major minor : Int,
      Publicador.nuevo.publicarTemperatura (-5) 7 500 Placa.inicial =
        { globales := Publicador.nuevo.laEmisora.detenerAnuncio
            (Publicador.nuevo.laEmisora.emitirAnuncioIBeacon Publicador.nuevo.beaconUUID
              major minor 203 Placa.inicial.globales),
          esperas := Placa.inicial.esperas ++ [(500,
            (Publicador.nuevo.laEmisora.emitirAnuncioIBeacon Publicador.nuevo.beaconUUID
              major minor 203 Placa.inicial.globales).bluefruit)] }) ∧
    (∃ beacon : BLEBeacon,
      beaconsSetBeacon
          (Publicador.nuevo.publicarTemperatura (-5) 7 500
            Placa.inicial).globales.bluefruit.llamadas =
        beaconsSetBeacon Placa.inicial.globales.bluefruit.llamadas ++ [beacon] ∧
      beacon.rssi = 203 ∧ beacon.trama.getLast? = some 203) :=
  publicar_rssi_203 Publicador.nuevo ⟨8683503031523738, -46⟩ (-5) 7 500 Placa.inicial
    (by decide)

end ProyectBio
